import Mathlib

/-
  Verification development for the uniswap-v4-indexer event-handling core.

  The TypeScript sources are embedded shallowly:
  * JavaScript BigInt arithmetic: `/` truncates toward zero (`Int.tdiv`),
    `%` is the truncated remainder with the sign of the dividend (`Int.tmod`);
    `Math.floor(a / b)` on numbers is `Int.fdiv`.
  * The durable entity store is an association list with first-match lookup;
    `set` prepends, so the newest write shadows older ones (upsert).
  * Handlers become state-transition functions `IndexerState -> Event -> IndexerState`.
  * String ids built by template concatenation (`chainId_poolId`, `poolId#tick`, ...)
    are modelled as structured keys; the concatenation is injective in its
    components, so this preserves aliasing behaviour.  Address strings are
    modelled as already lower-cased (the handlers normalise case on entry,
    which no claim depends on).
-/

set_option maxRecDepth 100000
set_option maxHeartbeats 1600000

namespace UniV4

/-- Truncated integer division: semantics of `/` on JavaScript BigInt values
(rounds toward zero), used for every BigInt division in the indexer. -/
def jsDiv (a b : Int) : Int := Int.tdiv a b

/-- Truncated remainder: semantics of `%` on JavaScript BigInt values
(takes the sign of the dividend). -/
def jsMod (a b : Int) : Int := Int.tmod a b

/-- `Math.floor(a / b)` on JavaScript numbers (floored division), used for
interval-bucket indices. -/
def jsFloorDiv (a b : Int) : Int := Int.fdiv a b

/-- Q128 constant for fee growth precision (Q128.128 format), from
src/src/handlers/swap.ts and the Donate handler. -/
def Q128 : Int := 2 ^ 128

/-- Q96 constant of the sqrt-price fixed-point format. -/
def Q96 : Int := 2 ^ 96

/-- getFeeGrowthInside from liquidityUtils (src/unnamed/part_002): fee growth
inside a position's tick range. -/
def getFeeGrowthInside (feeGrowthGlobal feeGrowthOutsideLower feeGrowthOutsideUpper
    tickLower tickUpper currentTick : Int) : Int :=
  let feeGrowthBelow : Int :=
    if currentTick ≥ tickLower then feeGrowthOutsideLower
    else feeGrowthGlobal - feeGrowthOutsideLower
  let feeGrowthAbove : Int :=
    if currentTick < tickUpper then feeGrowthOutsideUpper
    else feeGrowthGlobal - feeGrowthOutsideUpper
  feeGrowthGlobal - feeGrowthBelow - feeGrowthAbove

/-- calculateAccruedFees from liquidityUtils (src/unnamed/part_002):
`liquidity * (feeGrowthInside - feeGrowthInsideLast) / 2n ** 128n` with
JavaScript BigInt (truncated) division. -/
def calculateAccruedFees (liquidity feeGrowthInsideNow feeGrowthInsideLast : Int) : Int :=
  jsDiv (liquidity * (feeGrowthInsideNow - feeGrowthInsideLast)) Q128

/-- Modelled from the spec: `SqrtPriceMath.getAmount0Delta` of the
@uniswap/v3-sdk dependency (called by calculateTokenAmounts in
src/unnamed/part_002 but not part of this repository's sources).  The
virtual-reserve delta for token0 with roundUp = false: after ordering the two
sqrt prices as a <= b, it is `liquidity * 2^96 * (b - a) / b / a` with
truncating division. -/
def getAmount0Delta (sqrtRatioAX96 sqrtRatioBX96 liquidity : Int) : Int :=
  let a := min sqrtRatioAX96 sqrtRatioBX96
  let b := max sqrtRatioAX96 sqrtRatioBX96
  jsDiv (jsDiv (liquidity * Q96 * (b - a)) b) a

/-- Modelled from the spec: `SqrtPriceMath.getAmount1Delta` of the
@uniswap/v3-sdk dependency (not part of this repository's sources).  The
virtual-reserve delta for token1 with roundUp = false: after ordering the two
sqrt prices as a <= b, it is `liquidity * (b - a) / 2^96` with truncating
division. -/
def getAmount1Delta (sqrtRatioAX96 sqrtRatioBX96 liquidity : Int) : Int :=
  let a := min sqrtRatioAX96 sqrtRatioBX96
  let b := max sqrtRatioAX96 sqrtRatioBX96
  jsDiv (liquidity * (b - a)) Q96

/-- Result record of calculateTokenAmounts. -/
structure TokenAmounts where
  amount0 : Int
  amount1 : Int
  amount0Abs : Int
  amount1Abs : Int
deriving DecidableEq

/-- calculateTokenAmounts from liquidityUtils (src/unnamed/part_002).
`TickMath.getSqrtRatioAtTick` of the @uniswap/v3-sdk dependency (not part of
this repository's sources) is taken as a parameter `sqrtRatioAtTick`; the spec
only relies on it being the standard strictly monotone tick-to-sqrt-price
table, which theorems assume where needed. -/
def calculateTokenAmounts (sqrtRatioAtTick : Int → Int)
    (liquidityDelta tickLower tickUpper sqrtPriceX96 : Int) : TokenAmounts :=
  let isAddingLiquidity := liquidityDelta > 0
  let liquidityAbs := if liquidityDelta < 0 then -liquidityDelta else liquidityDelta
  let sqrtPriceLowerX96 := sqrtRatioAtTick tickLower
  let sqrtPriceUpperX96 := sqrtRatioAtTick tickUpper
  let amounts : Int × Int :=
    if sqrtPriceX96 ≤ sqrtPriceLowerX96 then
      -- Current price is below the position range - only token0
      (getAmount0Delta sqrtPriceLowerX96 sqrtPriceUpperX96 liquidityAbs, 0)
    else if sqrtPriceX96 ≥ sqrtPriceUpperX96 then
      -- Current price is above the position range - only token1
      (0, getAmount1Delta sqrtPriceLowerX96 sqrtPriceUpperX96 liquidityAbs)
    else
      -- Current price is within the position range - both tokens
      (getAmount0Delta sqrtPriceX96 sqrtPriceUpperX96 liquidityAbs,
       getAmount1Delta sqrtPriceLowerX96 sqrtPriceX96 liquidityAbs)
  { amount0 := if isAddingLiquidity then amounts.1 else -amounts.1
    amount1 := if isAddingLiquidity then amounts.2 else -amounts.2
    amount0Abs := amounts.1
    amount1Abs := amounts.2 }

/-- calculateFees from src/src/handlers/swap.ts:
`(amount * feeTier) / 1000000n` (truncating BigInt division). -/
def calculateFees (jsAmount feeTier : Int) : Int := jsDiv (jsAmount * feeTier) 1000000

/-- abs from src/src/handlers/swap.ts. -/
def jsAbs (value : Int) : Int := if value < 0 then -value else value

/-- updateFeeGrowth from src/src/handlers/swap.ts: global fee-growth update,
short-circuiting to no change when liquidity is zero. -/
def updateFeeGrowth (currentFeeGrowth fees liquidity : Int) : Int :=
  if liquidity = 0 then currentFeeGrowth
  else currentFeeGrowth + jsDiv (fees * Q128) liquidity

/-- flipFeeGrowthOutside from src/src/handlers/swap.ts. -/
def flipFeeGrowthOutside (feeGrowthGlobal feeGrowthOutside : Int) : Int :=
  feeGrowthGlobal - feeGrowthOutside

/-- Division that records a JavaScript BigInt division-by-zero fault as `none`. -/
def checkedDiv (a b : Int) : Option Int :=
  if b = 0 then none else some (Int.tdiv a b)

/-- updateFeeGrowth with the division-by-zero fault made observable: identical
branch structure to updateFeeGrowth, but the division is `checkedDiv`. -/
def updateFeeGrowthChecked (currentFeeGrowth fees liquidity : Int) : Option Int :=
  if liquidity = 0 then some currentFeeGrowth
  else (checkedDiv (fees * Q128) liquidity).map (fun q => currentFeeGrowth + q)

/-- The Donate handler's fee-growth update (src/unnamed/part_003): only when
`pool.liquidity > 0n` does it add `amount * Q128 / pool.liquidity`; here with
the division-by-zero fault made observable via `checkedDiv`. -/
def donateFeeGrowthChecked (feeGrowthGlobal amount liquidity : Int) : Option Int :=
  if liquidity > 0 then (checkedDiv (amount * Q128) liquidity).map (fun q => feeGrowthGlobal + q)
  else some feeGrowthGlobal

/-- The Donate handler's unchecked fee-growth update as written in the source. -/
def donateFeeGrowth (feeGrowthGlobal amount liquidity : Int) : Int :=
  if liquidity > 0 then feeGrowthGlobal + jsDiv (amount * Q128) liquidity
  else feeGrowthGlobal

/-- The ascending candidate loop of getInitializedTicksCrossed
(`for (let tick = currentTick; tick <= endTick; tick += tickSpacing)`), with
explicit fuel; the callers supply enough fuel for the loop to run to
completion whenever tickSpacing is positive. -/
def ticksToCheckAsc : Nat → Int → Int → Int → List Int
  | 0, _, _, _ => []
  | fuel + 1, tick, endTick, tickSpacing =>
    if tick ≤ endTick then tick :: ticksToCheckAsc fuel (tick + tickSpacing) endTick tickSpacing
    else []

/-- The descending candidate loop of getInitializedTicksCrossed
(`for (let tick = currentTick; tick >= endTick; tick -= tickSpacing)`). -/
def ticksToCheckDesc : Nat → Int → Int → Int → List Int
  | 0, _, _, _ => []
  | fuel + 1, tick, endTick, tickSpacing =>
    if tick ≥ endTick then tick :: ticksToCheckDesc fuel (tick - tickSpacing) endTick tickSpacing
    else []

/-- getInitializedTicksCrossed from src/src/handlers/swap.ts.  The batch
existence check against the Tick store is abstracted as the predicate
`initialized`; the swap handler instantiates it with presence in the state's
tick store. -/
def getInitializedTicksCrossed (initialized : Int → Bool)
    (oldTick newTick tickSpacing : Int) : List Int :=
  if newTick = oldTick then []
  else
    let ascending := newTick > oldTick
    let startTick := if ascending then oldTick + 1 else oldTick
    let endTick := if ascending then newTick else newTick + 1
    let remainder := jsMod startTick tickSpacing
    let currentTick :=
      if remainder ≠ 0 then
        if ascending then startTick + (tickSpacing - remainder)
        else startTick - remainder
      else startTick
    let ticksToCheck :=
      if ascending then
        ticksToCheckAsc ((endTick - currentTick).toNat + 2) currentTick endTick tickSpacing
      else
        ticksToCheckDesc ((currentTick - endTick).toNat + 2) currentTick endTick tickSpacing
    ticksToCheck.filter initialized

/-- The entity store interface: lookup returns the most recent write for a
key (writes prepend, so the newest entry shadows older ones). -/
structure Store (κ α : Type) where
  entries : List (κ × α)
deriving DecidableEq

/-- First-match association lookup. -/
def storeFind {κ α : Type} [DecidableEq κ] (key : κ) : List (κ × α) → Option α
  | [] => none
  | kv :: rest => if kv.1 = key then some kv.2 else storeFind key rest

/-- `context.<Entity>.get(id)`. -/
def Store.get {κ α : Type} [DecidableEq κ] (s : Store κ α) (key : κ) : Option α :=
  storeFind key s.entries

/-- `context.<Entity>.set(record)`: upsert by prepending. -/
def Store.set {κ α : Type} (s : Store κ α) (key : κ) (v : α) : Store κ α :=
  ⟨(key, v) :: s.entries⟩

/-- Pool identity: the id string `chainId_poolIdHex` as a structured key. -/
structure PoolId where
  chainId : Int
  poolIdHex : String
deriving DecidableEq

/-- Tick id `poolId#tickIdx` as a structured key. -/
abbrev TickKey := PoolId × Int

/-- Position id `poolId#owner#tickLower#tickUpper` as a structured key. -/
abbrev PosKey := PoolId × String × Int × Int

/-- LiquidityProvider id `chainId_poolId-address` as a structured key. -/
abbrev LPKey := Int × PoolId × String

/-- Transaction id `chainId_txHash` as a structured key. -/
abbrev TxKey := Int × String

/-- Swap entity id `chainId_txHash_logIndex` as a structured key. -/
abbrev SwapRecKey := Int × String × Int

/-- ModifyLiquidity entity id `transactionId-logIndex` as a structured key. -/
abbrev ModifyRecKey := TxKey × Int

/-- HookStats id `chainId_hooks` as a structured key. -/
abbrev HookKey := Int × String

/-- Interval-bucket id `poolId-periodIndex` as a structured key. -/
abbrev PoolBucketKey := PoolId × Int

/-- Interval-bucket id `tokenId-periodIndex` as a structured key. -/
abbrev TokenBucketKey := String × Int

/-- ADDRESS_ZERO from src/src/utils/constants.ts (equal to viem's zeroAddress). -/
def ADDRESS_ZERO : String := "0x0000000000000000000000000000000000000000"

/-- The Pool entity, with the fields the handlers read or write. -/
structure Pool where
  id : PoolId
  chainId : Int
  poolId : String
  token0_id : String
  token1_id : String
  hooks : String
  feeTier : Int
  tickSpacing : Int
  tick : Option Int
  sqrtPrice : Int
  sqrtPriceX96 : Int
  liquidity : Int
  feeGrowthGlobal0X128 : Int
  feeGrowthGlobal1X128 : Int
  volume0 : Int
  volume1 : Int
  fees0 : Int
  fees1 : Int
  tvl0 : Int
  tvl1 : Int
  txCount : Int
  swapCount : Int
  modifyLiquidityCount : Int
  positionCount : Int
  activePositionCount : Int
deriving DecidableEq

/-- The Token entity. -/
structure Token where
  id : String
  chainId : Int
  symbol : String
  name : String
  decimals : Int
  totalSupply : Int
  volume : Int
  txCount : Int
  poolCount : Int
  swapCount : Int
  modifyLiquidityCount : Int
  positionCount : Int
  lpCount : Int
  tvl : Int
  whitelistPools : List String
deriving DecidableEq

/-- The Tick entity (its existence in the store defines "initialized"). -/
structure Tick where
  chainId : Int
  poolId : String
  tickIdx : Int
  pool_id : PoolId
  liquidityGross : Int
  liquidityNet : Int
  price0 : Int
  price1 : Int
  feeGrowthOutside0X128 : Int
  feeGrowthOutside1X128 : Int
  positionCount : Int
  createdAtTimestamp : Int
  createdAtBlockNumber : Int
deriving DecidableEq

/-- The Position entity. -/
structure Position where
  chainId : Int
  owner : String
  liquidityProvider_id : LPKey
  pool_id : PoolId
  token0_id : String
  token1_id : String
  tickLower : Int
  tickUpper : Int
  liquidity : Int
  deposited0 : Int
  deposited1 : Int
  withdrawn0 : Int
  withdrawn1 : Int
  fees0 : Int
  fees1 : Int
  feeGrowthInside0LastX128 : Int
  feeGrowthInside1LastX128 : Int
  modifyLiquidityCount : Int
  transaction_id : TxKey
  createdAtTimestamp : Int
  createdAtBlockNumber : Int
deriving DecidableEq

/-- The LiquidityProvider entity. -/
structure LiquidityProvider where
  id : LPKey
  chainId : Int
  address : String
  deposited0 : Int
  deposited1 : Int
  withdrawn0 : Int
  withdrawn1 : Int
  fees0 : Int
  fees1 : Int
  positionCount : Int
  modifyLiquidityCount : Int
  createdAtTimestamp : Int
  createdAtBlockNumber : Int
deriving DecidableEq

/-- The Transaction entity (src/unnamed/part_001). -/
structure Transaction where
  id : TxKey
  chainId : Int
  blockNumber : Int
  timestamp : Int
  gasUsed : Int
  gasPrice : Int
deriving DecidableEq

/-- The Swap event-log row emitted by the swap handler. -/
structure SwapRecord where
  chainId : Int
  transaction_id : TxKey
  timestamp : Int
  pool_id : PoolId
  token0_id : String
  token1_id : String
  sender : String
  recipient : String
  origin : String
  amount0 : Int
  amount1 : Int
  tick : Int
  sqrtPriceX96 : Int
  logIndex : Int
deriving DecidableEq

/-- The ModifyLiquidity event-log row emitted by the modifyLiquidity handler. -/
structure ModifyRecord where
  chainId : Int
  transaction_id : TxKey
  timestamp : Int
  pool_id : PoolId
  token0_id : String
  token1_id : String
  sender : String
  origin : String
  amount : Int
  amount0 : Int
  amount1 : Int
  tickLower : Int
  tickUpper : Int
  logIndex : Int
deriving DecidableEq

/-- The HookStats entity. -/
structure HookStats where
  chainId : Int
  address : String
  poolCount : Int
  swapCount : Int
  modifyLiquidityCount : Int
  volume0 : Int
  volume1 : Int
  fees0 : Int
  fees1 : Int
  tvl0 : Int
  tvl1 : Int
deriving DecidableEq

/-- Pool interval bucket (PoolDayData / PoolHourData / Pool5MinuteData all
share this shape in src/unnamed/part_000). -/
structure PoolPeriodData where
  chainId : Int
  startTimestamp : Int
  pool_id : PoolId
  volume0 : Int
  volume1 : Int
  fees0 : Int
  fees1 : Int
  tvl0 : Int
  tvl1 : Int
  txCount : Int
  swapCount : Int
  modifyLiquidityCount : Int
  open_ : Int
  high : Int
  low : Int
  close : Int
  liquidity : Int
  sqrtPriceX96 : Int
  tick : Int
deriving DecidableEq

/-- Token interval bucket (TokenDayData / TokenHourData). -/
structure TokenPeriodData where
  chainId : Int
  startTimestamp : Int
  token_id : String
  volume : Int
  txCount : Int
  swapCount : Int
  modifyLiquidityCount : Int
deriving DecidableEq

/-- Block metadata carried by every event. -/
structure BlockInfo where
  number : Int
  timestamp : Int
deriving DecidableEq

/-- Transaction metadata carried by every event (`event.transaction`). -/
structure TxMeta where
  hash : String
  fromAddr : Option String
deriving DecidableEq

/-- PoolManager.ModifyLiquidity event parameters plus envelope. -/
structure ModifyLiquidityEvent where
  chainId : Int
  id : String
  sender : String
  tickLower : Int
  tickUpper : Int
  liquidityDelta : Int
  block : BlockInfo
  txn : TxMeta
  logIndex : Int
deriving DecidableEq

/-- PoolManager.Swap event parameters plus envelope. -/
structure SwapEvent where
  chainId : Int
  id : String
  sender : String
  amount0 : Int
  amount1 : Int
  sqrtPriceX96 : Int
  liquidity : Int
  tick : Int
  block : BlockInfo
  txn : TxMeta
  logIndex : Int
deriving DecidableEq

/-- PoolManager.Donate event parameters plus envelope. -/
structure DonateEvent where
  chainId : Int
  id : String
  amount0 : Int
  amount1 : Int
  block : BlockInfo
  txn : TxMeta
  logIndex : Int
deriving DecidableEq

/-- The whole entity-store snapshot the three handlers read and write. -/
structure IndexerState where
  pools : Store PoolId Pool
  tokens : Store String Token
  ticks : Store TickKey Tick
  positions : Store PosKey Position
  lps : Store LPKey LiquidityProvider
  transactions : Store TxKey Transaction
  swapRecords : Store SwapRecKey SwapRecord
  modifyRecords : Store ModifyRecKey ModifyRecord
  hookStats : Store HookKey HookStats
  poolDayDatas : Store PoolBucketKey PoolPeriodData
  poolHourDatas : Store PoolBucketKey PoolPeriodData
  pool5MinuteDatas : Store PoolBucketKey PoolPeriodData
  tokenDayDatas : Store TokenBucketKey TokenPeriodData
  tokenHourDatas : Store TokenBucketKey TokenPeriodData
deriving DecidableEq

/-- JavaScript `a <= b` where `b` may be undefined (comparison with undefined
is false): used for `event.params.tickLower <= pool.tick`. -/
def jsLeOpt (a : Int) (b : Option Int) : Bool :=
  match b with
  | some v => a ≤ v
  | none => false

/-- JavaScript `a > b` where `b` may be undefined: used for
`event.params.tickUpper > pool.tick`. -/
def jsGtOpt (a : Int) (b : Option Int) : Bool :=
  match b with
  | some v => a > v
  | none => false

/-- createTick from src/src/handlers/modifyLiquidity.ts. -/
def createTick (tickIdx : Int) (poolKey : PoolId) (poolIdString : String)
    (chainId timestamp blockNumber : Int) : Tick :=
  { chainId := chainId
    poolId := poolIdString
    tickIdx := tickIdx
    pool_id := poolKey
    liquidityGross := 0
    liquidityNet := 0
    price0 := 0
    price1 := 0
    feeGrowthOutside0X128 := 0
    feeGrowthOutside1X128 := 0
    positionCount := 0
    createdAtTimestamp := timestamp
    createdAtBlockNumber := blockNumber }

/-- createPosition from src/src/handlers/modifyLiquidity.ts (liquidity starts at 0). -/
def createPosition (owner : String) (poolKey : PoolId) (token0Id token1Id : String)
    (tickLower tickUpper : Int) (transactionId : TxKey) (timestamp blockNumber : Int)
    (liquidityProviderId : LPKey) (chainId : Int) : Position :=
  { chainId := chainId
    owner := owner
    liquidityProvider_id := liquidityProviderId
    pool_id := poolKey
    token0_id := token0Id
    token1_id := token1Id
    tickLower := tickLower
    tickUpper := tickUpper
    liquidity := 0
    deposited0 := 0
    deposited1 := 0
    withdrawn0 := 0
    withdrawn1 := 0
    fees0 := 0
    fees1 := 0
    feeGrowthInside0LastX128 := 0
    feeGrowthInside1LastX128 := 0
    modifyLiquidityCount := 0
    transaction_id := transactionId
    createdAtTimestamp := timestamp
    createdAtBlockNumber := blockNumber }

/-- getOrCreateTransaction from src/unnamed/part_001: returns the (possibly
fresh) record after stamping block data, along with the updated store. -/
def getOrCreateTransaction (chainId : Int) (txHash : String)
    (blockNumber timestamp : Int) (store : Store TxKey Transaction) :
    Transaction × Store TxKey Transaction :=
  let txId : TxKey := (chainId, txHash)
  let base : Transaction :=
    match store.get txId with
    | some t => t
    | none =>
      { id := txId, chainId := chainId, blockNumber := 0, timestamp := 0
        gasUsed := 0, gasPrice := 0 }
  let transaction :=
    { base with blockNumber := blockNumber, timestamp := timestamp
                gasUsed := 0, gasPrice := 0 }
  (transaction, store.set txId transaction)

/-- getOrCreateLiquidityProvider from src/src/handlers/modifyLiquidity.ts:
if absent, a zeroed record is created AND written to the store before the
handler's token checks run. -/
def getOrCreateLiquidityProvider (poolKey : PoolId) (chainId : Int) (address : String)
    (timestamp blockNumber : Int) (store : Store LPKey LiquidityProvider) :
    LiquidityProvider × Store LPKey LiquidityProvider :=
  let lpId : LPKey := (chainId, poolKey, address)
  match store.get lpId with
  | some lp => (lp, store)
  | none =>
    let newLP : LiquidityProvider :=
      { id := lpId, chainId := chainId, address := address
        deposited0 := 0, deposited1 := 0, withdrawn0 := 0, withdrawn1 := 0
        fees0 := 0, fees1 := 0, positionCount := 0, modifyLiquidityCount := 0
        createdAtTimestamp := timestamp, createdAtBlockNumber := blockNumber }
    (newLP, store.set lpId newLP)

/-- updatePoolDayData from src/unnamed/part_000 (fresh buckets seed
liquidity/sqrtPriceX96 from the pool). -/
def updatePoolDayData (timestamp : Int) (pool : Pool)
    (store : Store PoolBucketKey PoolPeriodData) :
    PoolPeriodData × Store PoolBucketKey PoolPeriodData :=
  let dayId := jsFloorDiv timestamp 86400
  let dayStartTimestamp := dayId * 86400
  let key : PoolBucketKey := (pool.id, dayId)
  let base : PoolPeriodData :=
    match store.get key with
    | some d => d
    | none =>
      { chainId := pool.chainId
        startTimestamp := dayStartTimestamp
        pool_id := pool.id
        volume0 := 0, volume1 := 0, fees0 := 0, fees1 := 0
        tvl0 := 0, tvl1 := 0, txCount := 0, swapCount := 0
        modifyLiquidityCount := 0
        open_ := pool.sqrtPriceX96, high := pool.sqrtPriceX96
        low := pool.sqrtPriceX96, close := pool.sqrtPriceX96
        liquidity := pool.liquidity, sqrtPriceX96 := pool.sqrtPriceX96
        tick := pool.tick.getD 0 }
  let d1 := if pool.sqrtPriceX96 > base.high then { base with high := pool.sqrtPriceX96 } else base
  let d2 := if pool.sqrtPriceX96 < d1.low then { d1 with low := pool.sqrtPriceX96 } else d1
  let d3 := { d2 with
    liquidity := pool.liquidity
    sqrtPriceX96 := pool.sqrtPriceX96
    close := pool.sqrtPriceX96
    tick := pool.tick.getD 0
    tvl0 := pool.tvl0
    tvl1 := pool.tvl1
    txCount := d2.txCount + 1 }
  (d3, store.set key d3)

/-- updatePoolHourData from src/unnamed/part_000 (fresh buckets seed
liquidity/sqrtPriceX96 as 0). -/
def updatePoolHourData (timestamp : Int) (pool : Pool)
    (store : Store PoolBucketKey PoolPeriodData) :
    PoolPeriodData × Store PoolBucketKey PoolPeriodData :=
  let hourIndex := jsFloorDiv timestamp 3600
  let hourStartUnix := hourIndex * 3600
  let key : PoolBucketKey := (pool.id, hourIndex)
  let base : PoolPeriodData :=
    match store.get key with
    | some d => d
    | none =>
      { chainId := pool.chainId
        startTimestamp := hourStartUnix
        pool_id := pool.id
        volume0 := 0, volume1 := 0, fees0 := 0, fees1 := 0
        tvl0 := 0, tvl1 := 0, txCount := 0, swapCount := 0
        modifyLiquidityCount := 0
        open_ := pool.sqrtPriceX96, high := pool.sqrtPriceX96
        low := pool.sqrtPriceX96, close := pool.sqrtPriceX96
        liquidity := 0, sqrtPriceX96 := 0
        tick := pool.tick.getD 0 }
  let d1 := if pool.sqrtPriceX96 > base.high then { base with high := pool.sqrtPriceX96 } else base
  let d2 := if pool.sqrtPriceX96 < d1.low then { d1 with low := pool.sqrtPriceX96 } else d1
  let d3 := { d2 with
    liquidity := pool.liquidity
    sqrtPriceX96 := pool.sqrtPriceX96
    close := pool.sqrtPriceX96
    tick := pool.tick.getD 0
    tvl0 := pool.tvl0
    tvl1 := pool.tvl1
    txCount := d2.txCount + 1 }
  (d3, store.set key d3)

/-- updatePool5MinuteData from src/unnamed/part_000 (fresh buckets seed
liquidity/sqrtPriceX96 as 0). -/
def updatePool5MinuteData (timestamp : Int) (pool : Pool)
    (store : Store PoolBucketKey PoolPeriodData) :
    PoolPeriodData × Store PoolBucketKey PoolPeriodData :=
  let fiveMinuteIndex := jsFloorDiv timestamp 300
  let fiveMinuteStartUnix := fiveMinuteIndex * 300
  let key : PoolBucketKey := (pool.id, fiveMinuteIndex)
  let base : PoolPeriodData :=
    match store.get key with
    | some d => d
    | none =>
      { chainId := pool.chainId
        startTimestamp := fiveMinuteStartUnix
        pool_id := pool.id
        volume0 := 0, volume1 := 0, fees0 := 0, fees1 := 0
        tvl0 := 0, tvl1 := 0, txCount := 0, swapCount := 0
        modifyLiquidityCount := 0
        open_ := pool.sqrtPriceX96, high := pool.sqrtPriceX96
        low := pool.sqrtPriceX96, close := pool.sqrtPriceX96
        liquidity := 0, sqrtPriceX96 := 0
        tick := pool.tick.getD 0 }
  let d1 := if pool.sqrtPriceX96 > base.high then { base with high := pool.sqrtPriceX96 } else base
  let d2 := if pool.sqrtPriceX96 < d1.low then { d1 with low := pool.sqrtPriceX96 } else d1
  let d3 := { d2 with
    liquidity := pool.liquidity
    sqrtPriceX96 := pool.sqrtPriceX96
    close := pool.sqrtPriceX96
    tick := pool.tick.getD 0
    tvl0 := pool.tvl0
    tvl1 := pool.tvl1
    txCount := d2.txCount + 1 }
  (d3, store.set key d3)

/-- updateTokenDayData from src/unnamed/part_000. -/
def updateTokenDayData (timestamp : Int) (token : Token)
    (store : Store TokenBucketKey TokenPeriodData) :
    TokenPeriodData × Store TokenBucketKey TokenPeriodData :=
  let dayId := jsFloorDiv timestamp 86400
  let dayStartTimestamp := dayId * 86400
  let key : TokenBucketKey := (token.id, dayId)
  let base : TokenPeriodData :=
    match store.get key with
    | some d => d
    | none =>
      { chainId := token.chainId
        startTimestamp := dayStartTimestamp
        token_id := token.id
        volume := 0, txCount := 0, swapCount := 0, modifyLiquidityCount := 0 }
  let d1 := { base with txCount := base.txCount + 1 }
  (d1, store.set key d1)

/-- updateTokenHourData from src/unnamed/part_000. -/
def updateTokenHourData (timestamp : Int) (token : Token)
    (store : Store TokenBucketKey TokenPeriodData) :
    TokenPeriodData × Store TokenBucketKey TokenPeriodData :=
  let hourIndex := jsFloorDiv timestamp 3600
  let hourStartTimestamp := hourIndex * 3600
  let key : TokenBucketKey := (token.id, hourIndex)
  let base : TokenPeriodData :=
    match store.get key with
    | some d => d
    | none =>
      { chainId := token.chainId
        startTimestamp := hourStartTimestamp
        token_id := token.id
        volume := 0, txCount := 0, swapCount := 0, modifyLiquidityCount := 0 }
  let d1 := { base with txCount := base.txCount + 1 }
  (d1, store.set key d1)

/-- updateTickCrossed from src/src/handlers/swap.ts: re-reads the tick and
flips both feeGrowthOutside accumulators against the given globals. -/
def updateTickCrossed (tickKey : TickKey)
    (feeGrowthGlobal0X128 feeGrowthGlobal1X128 : Int)
    (store : Store TickKey Tick) : Store TickKey Tick :=
  match store.get tickKey with
  | some tickRO =>
    store.set tickKey
      { tickRO with
        feeGrowthOutside0X128 := flipFeeGrowthOutside feeGrowthGlobal0X128 tickRO.feeGrowthOutside0X128
        feeGrowthOutside1X128 := flipFeeGrowthOutside feeGrowthGlobal1X128 tickRO.feeGrowthOutside1X128 }
  | none => store

/-- The Position-store key read and written by a ModifyLiquidity event. -/
def positionKeyOf (e : ModifyLiquidityEvent) : PosKey :=
  (⟨e.chainId, e.id⟩, e.sender, e.tickLower, e.tickUpper)

/-- The success path of PoolManager.ModifyLiquidity.handler (pool and both
tokens present), operating on the already-loaded records; `s1` is the state
after the batched getOrCreateLiquidityProvider write. -/
def modifyLiquidityLoaded (sqrtRatioAtTick : Int → Int) (e : ModifyLiquidityEvent)
    (poolRO : Pool) (token0RO token1RO : Token)
    (lowerTickRO? upperTickRO? : Option Tick) (positionRO? : Option Position)
    (lpPair : LiquidityProvider × Store LPKey LiquidityProvider)
    (s1 : IndexerState) : IndexerState :=
  let poolKey : PoolId := ⟨e.chainId, e.id⟩
  let lowerTickKey : TickKey := (poolKey, e.tickLower)
  let upperTickKey : TickKey := (poolKey, e.tickUpper)
  let positionKey : PosKey := positionKeyOf e
  let timestamp : Int := e.block.timestamp
  let liquidityDelta : Int := e.liquidityDelta
  let isAddingLiquidity : Bool := liquidityDelta > 0
  let amounts : TokenAmounts := calculateTokenAmounts sqrtRatioAtTick liquidityDelta
    e.tickLower e.tickUpper poolRO.sqrtPriceX96
  let token0 : Token := { token0RO with
    txCount := token0RO.txCount + 1
    modifyLiquidityCount := token0RO.modifyLiquidityCount + 1 }
  let token1 : Token := { token1RO with
    txCount := token1RO.txCount + 1
    modifyLiquidityCount := token1RO.modifyLiquidityCount + 1 }
  let poolA : Pool := { poolRO with
    txCount := poolRO.txCount + 1
    modifyLiquidityCount := poolRO.modifyLiquidityCount + 1
    tvl0 := poolRO.tvl0 + amounts.amount0
    tvl1 := poolRO.tvl1 + amounts.amount1 }
  let poolB : Pool :=
    if jsLeOpt e.tickLower poolA.tick && jsGtOpt e.tickUpper poolA.tick then
      { poolA with liquidity := poolA.liquidity + liquidityDelta }
    else poolA
  let txPair : Transaction × Store TxKey Transaction :=
    getOrCreateTransaction e.chainId e.txn.hash e.block.number timestamp s1.transactions
  let transaction : Transaction := txPair.1
  let s2 : IndexerState := { s1 with transactions := txPair.2 }
  let modifyRecord : ModifyRecord :=
    { chainId := e.chainId
      transaction_id := transaction.id
      timestamp := timestamp
      pool_id := poolB.id
      token0_id := poolRO.token0_id
      token1_id := poolRO.token1_id
      sender := e.sender
      origin := e.txn.fromAddr.getD ""
      amount := liquidityDelta
      amount0 := amounts.amount0
      amount1 := amounts.amount1
      tickLower := e.tickLower
      tickUpper := e.tickUpper
      logIndex := e.logIndex }
  let lowerTick0 : Tick :=
    match lowerTickRO? with
    | some t => t
    | none => createTick e.tickLower poolB.id poolB.poolId poolB.chainId
        timestamp e.block.number
  let upperTick0 : Tick :=
    match upperTickRO? with
    | some t => t
    | none => createTick e.tickUpper poolB.id poolB.poolId poolB.chainId
        timestamp e.block.number
  let lowerTick1 : Tick := { lowerTick0 with
    liquidityGross := lowerTick0.liquidityGross + liquidityDelta
    liquidityNet := lowerTick0.liquidityNet + liquidityDelta }
  let upperTick1 : Tick := { upperTick0 with
    liquidityGross := upperTick0.liquidityGross + liquidityDelta
    liquidityNet := upperTick0.liquidityNet - liquidityDelta }
  let isNewPosition : Bool := positionRO?.isNone
  let lowerTick2 : Tick :=
    if isNewPosition && isAddingLiquidity then
      { lowerTick1 with positionCount := lowerTick1.positionCount + 1 }
    else lowerTick1
  let upperTick2 : Tick :=
    if isNewPosition && isAddingLiquidity then
      { upperTick1 with positionCount := upperTick1.positionCount + 1 }
    else upperTick1
  let s3 : IndexerState := { s2 with
    ticks := (s2.ticks.set lowerTickKey lowerTick2).set upperTickKey upperTick2 }
  let feeGrowthInside0X128 : Int := getFeeGrowthInside poolB.feeGrowthGlobal0X128
    lowerTick2.feeGrowthOutside0X128 upperTick2.feeGrowthOutside0X128
    e.tickLower e.tickUpper (poolB.tick.getD 0)
  let feeGrowthInside1X128 : Int := getFeeGrowthInside poolB.feeGrowthGlobal1X128
    lowerTick2.feeGrowthOutside1X128 upperTick2.feeGrowthOutside1X128
    e.tickLower e.tickUpper (poolB.tick.getD 0)
  let position0 : Position :=
    match positionRO? with
    | some p => p
    | none => createPosition e.sender poolB.id poolRO.token0_id poolRO.token1_id
        e.tickLower e.tickUpper transaction.id timestamp e.block.number
        lpPair.1.id poolB.chainId
  let liquidityProvider0 : LiquidityProvider := lpPair.1
  let posLp : Position × LiquidityProvider :=
    match positionRO? with
    | some pRO =>
      if pRO.liquidity > 0 then
        let accruedFees0 : Int := calculateAccruedFees pRO.liquidity
          feeGrowthInside0X128 pRO.feeGrowthInside0LastX128
        let accruedFees1 : Int := calculateAccruedFees pRO.liquidity
          feeGrowthInside1X128 pRO.feeGrowthInside1LastX128
        ({ position0 with
            fees0 := position0.fees0 + accruedFees0
            fees1 := position0.fees1 + accruedFees1 },
         { liquidityProvider0 with
            fees0 := liquidityProvider0.fees0 + accruedFees0
            fees1 := liquidityProvider0.fees1 + accruedFees1 })
      else (position0, liquidityProvider0)
    | none => (position0, liquidityProvider0)
  let position2 : Position := { posLp.1 with
    liquidity := posLp.1.liquidity + liquidityDelta
    feeGrowthInside0LastX128 := feeGrowthInside0X128
    feeGrowthInside1LastX128 := feeGrowthInside1X128
    modifyLiquidityCount := posLp.1.modifyLiquidityCount + 1 }
  let position3 : Position :=
    if isAddingLiquidity then
      { position2 with
        deposited0 := position2.deposited0 + amounts.amount0Abs
        deposited1 := position2.deposited1 + amounts.amount1Abs }
    else
      { position2 with
        withdrawn0 := position2.withdrawn0 + amounts.amount0Abs
        withdrawn1 := position2.withdrawn1 + amounts.amount1Abs }
  let lp2 : LiquidityProvider :=
    if isAddingLiquidity then
      { posLp.2 with
        deposited0 := posLp.2.deposited0 + amounts.amount0Abs
        deposited1 := posLp.2.deposited1 + amounts.amount1Abs }
    else
      { posLp.2 with
        withdrawn0 := posLp.2.withdrawn0 + amounts.amount0Abs
        withdrawn1 := posLp.2.withdrawn1 + amounts.amount1Abs }
  let lp3 : LiquidityProvider := { lp2 with modifyLiquidityCount := lp2.modifyLiquidityCount + 1 }
  let lp4 : LiquidityProvider :=
    if isNewPosition then { lp3 with positionCount := lp3.positionCount + 1 } else lp3
  let poolC : Pool :=
    if isNewPosition then { poolB with positionCount := poolB.positionCount + 1 } else poolB
  let token0b : Token :=
    if isNewPosition then { token0 with positionCount := token0.positionCount + 1 } else token0
  let token1b : Token :=
    if isNewPosition then { token1 with positionCount := token1.positionCount + 1 } else token1
  let wasZero : Bool :=
    match positionRO? with
    | none => true
    | some p => decide (p.liquidity = 0)
  let wasPositive : Bool :=
    match positionRO? with
    | none => false
    | some p => decide (p.liquidity > 0)
  let poolD : Pool :=
    if decide (position3.liquidity > 0) && wasZero then
      { poolC with activePositionCount := poolC.activePositionCount + 1 }
    else if decide (position3.liquidity = 0) && wasPositive then
      { poolC with activePositionCount := poolC.activePositionCount - 1 }
    else poolC
  let s4 : IndexerState := { s3 with
    positions := s3.positions.set positionKey position3
    lps := s3.lps.set lpPair.1.id lp4 }
  let pd : PoolPeriodData × Store PoolBucketKey PoolPeriodData :=
    updatePoolDayData timestamp poolD s4.poolDayDatas
  let s5 : IndexerState := { s4 with poolDayDatas := pd.2 }
  let ph : PoolPeriodData × Store PoolBucketKey PoolPeriodData :=
    updatePoolHourData timestamp poolD s5.poolHourDatas
  let s6 : IndexerState := { s5 with poolHourDatas := ph.2 }
  let p5 : PoolPeriodData × Store PoolBucketKey PoolPeriodData :=
    updatePool5MinuteData timestamp poolD s6.pool5MinuteDatas
  let s7 : IndexerState := { s6 with pool5MinuteDatas := p5.2 }
  let td0 : TokenPeriodData × Store TokenBucketKey TokenPeriodData :=
    updateTokenDayData timestamp token0b s7.tokenDayDatas
  let td1 : TokenPeriodData × Store TokenBucketKey TokenPeriodData :=
    updateTokenDayData timestamp token1b td0.2
  let s8 : IndexerState := { s7 with tokenDayDatas := td1.2 }
  let th0 : TokenPeriodData × Store TokenBucketKey TokenPeriodData :=
    updateTokenHourData timestamp token0b s8.tokenHourDatas
  let th1 : TokenPeriodData × Store TokenBucketKey TokenPeriodData :=
    updateTokenHourData timestamp token1b th0.2
  let s9 : IndexerState := { s8 with tokenHourDatas := th1.2 }
  let poolDayData : PoolPeriodData := { pd.1 with modifyLiquidityCount := pd.1.modifyLiquidityCount + 1 }
  let poolHourData : PoolPeriodData := { ph.1 with modifyLiquidityCount := ph.1.modifyLiquidityCount + 1 }
  let pool5MinuteData : PoolPeriodData := { p5.1 with modifyLiquidityCount := p5.1.modifyLiquidityCount + 1 }
  let token0DayData : TokenPeriodData := { td0.1 with modifyLiquidityCount := td0.1.modifyLiquidityCount + 1 }
  let token1DayData : TokenPeriodData := { td1.1 with modifyLiquidityCount := td1.1.modifyLiquidityCount + 1 }
  let token0HourData : TokenPeriodData := { th0.1 with modifyLiquidityCount := th0.1.modifyLiquidityCount + 1 }
  let token1HourData : TokenPeriodData := { th1.1 with modifyLiquidityCount := th1.1.modifyLiquidityCount + 1 }
  let dayId : Int := jsFloorDiv timestamp 86400
  let hourId : Int := jsFloorDiv timestamp 3600
  let fiveMinId : Int := jsFloorDiv timestamp 300
  { s9 with
    poolDayDatas := s9.poolDayDatas.set (poolD.id, dayId) poolDayData
    poolHourDatas := s9.poolHourDatas.set (poolD.id, hourId) poolHourData
    pool5MinuteDatas := s9.pool5MinuteDatas.set (poolD.id, fiveMinId) pool5MinuteData
    tokenDayDatas := (s9.tokenDayDatas.set (token0b.id, dayId) token0DayData).set
      (token1b.id, dayId) token1DayData
    tokenHourDatas := (s9.tokenHourDatas.set (token0b.id, hourId) token0HourData).set
      (token1b.id, hourId) token1HourData
    tokens := (s9.tokens.set token0b.id token0b).set token1b.id token1b
    pools := s9.pools.set poolKey poolD
    modifyRecords := s9.modifyRecords.set (transaction.id, e.logIndex) modifyRecord }

/-- PoolManager.ModifyLiquidity.handler from src/src/handlers/modifyLiquidity.ts
as a state transition.  Note the source control flow: the missing-pool check
returns first; then the batched loads run, INCLUDING getOrCreateLiquidityProvider
(which writes a fresh LiquidityProvider when absent); only then does the
missing-token check return. -/
def modifyLiquidityStep (sqrtRatioAtTick : Int → Int)
    (s0 : IndexerState) (e : ModifyLiquidityEvent) : IndexerState :=
  let poolKey : PoolId := ⟨e.chainId, e.id⟩
  match s0.pools.get poolKey with
  | none => s0
  | some poolRO =>
    let lowerTickRO? : Option Tick := s0.ticks.get (poolKey, e.tickLower)
    let upperTickRO? : Option Tick := s0.ticks.get (poolKey, e.tickUpper)
    let positionRO? : Option Position := s0.positions.get (positionKeyOf e)
    let lpPair : LiquidityProvider × Store LPKey LiquidityProvider :=
      getOrCreateLiquidityProvider poolKey e.chainId e.sender
        e.block.timestamp e.block.number s0.lps
    let s1 : IndexerState := { s0 with lps := lpPair.2 }
    match s0.tokens.get poolRO.token0_id, s0.tokens.get poolRO.token1_id with
    | some token0RO, some token1RO =>
      modifyLiquidityLoaded sqrtRatioAtTick e poolRO token0RO token1RO
        lowerTickRO? upperTickRO? positionRO? lpPair s1
    | _, _ => s1

/-- The success path of PoolManager.Swap.handler (pool and both tokens
present), from src/src/handlers/swap.ts. -/
def swapLoaded (e : SwapEvent) (poolRO : Pool) (token0RO token1RO : Token)
    (s0 : IndexerState) : IndexerState :=
  let poolKey : PoolId := ⟨e.chainId, e.id⟩
  let timestamp : Int := e.block.timestamp
  let amount0 : Int := -e.amount0
  let amount1 : Int := -e.amount1
  let amount0Abs : Int := jsAbs amount0
  let amount1Abs : Int := jsAbs amount1
  let fees0 : Int := calculateFees amount0Abs poolRO.feeTier
  let fees1 : Int := calculateFees amount1Abs poolRO.feeTier
  let pool1 : Pool := { poolRO with
    feeGrowthGlobal0X128 := updateFeeGrowth poolRO.feeGrowthGlobal0X128 fees0 poolRO.liquidity
    feeGrowthGlobal1X128 := updateFeeGrowth poolRO.feeGrowthGlobal1X128 fees1 poolRO.liquidity }
  let oldTick : Int := poolRO.tick.getD 0
  let newTick : Int := e.tick
  let s1 : IndexerState :=
    if oldTick ≠ newTick then
      let ticksCrossed : List Int := getInitializedTicksCrossed
        (fun tickIdx => (s0.ticks.get (poolKey, tickIdx)).isSome)
        oldTick newTick pool1.tickSpacing
      { s0 with
        ticks := ticksCrossed.foldl
          (fun m tickIdx => updateTickCrossed (poolKey, tickIdx)
            pool1.feeGrowthGlobal0X128 pool1.feeGrowthGlobal1X128 m)
          s0.ticks }
    else s0
  let pool2 : Pool := { pool1 with
    volume0 := pool1.volume0 + amount0Abs
    volume1 := pool1.volume1 + amount1Abs
    fees0 := pool1.fees0 + fees0
    fees1 := pool1.fees1 + fees1
    txCount := pool1.txCount + 1
    swapCount := pool1.swapCount + 1
    liquidity := e.liquidity
    tick := some e.tick
    sqrtPrice := e.sqrtPriceX96
    sqrtPriceX96 := e.sqrtPriceX96
    tvl0 := pool1.tvl0 + amount0
    tvl1 := pool1.tvl1 + amount1 }
  let token0 : Token := { token0RO with
    volume := token0RO.volume + amount0Abs
    tvl := token0RO.tvl + amount0
    txCount := token0RO.txCount + 1
    swapCount := token0RO.swapCount + 1 }
  let token1 : Token := { token1RO with
    volume := token1RO.volume + amount1Abs
    tvl := token1RO.tvl + amount1
    txCount := token1RO.txCount + 1
    swapCount := token1RO.swapCount + 1 }
  let s2 : IndexerState :=
    if pool2.hooks ≠ ADDRESS_ZERO then
      match s1.hookStats.get (e.chainId, pool2.hooks) with
      | some hs =>
        let hs2 : HookStats := { hs with
          swapCount := hs.swapCount + 1
          volume0 := hs.volume0 + amount0Abs
          volume1 := hs.volume1 + amount1Abs
          fees0 := hs.fees0 + fees0
          fees1 := hs.fees1 + fees1
          tvl0 := hs.tvl0 + amount0
          tvl1 := hs.tvl1 + amount1 }
        { s1 with hookStats := s1.hookStats.set (e.chainId, pool2.hooks) hs2 }
      | none => s1
    else s1
  let txPair : Transaction × Store TxKey Transaction :=
    getOrCreateTransaction e.chainId e.txn.hash e.block.number timestamp s2.transactions
  let s3 : IndexerState := { s2 with transactions := txPair.2 }
  let swapRecord : SwapRecord :=
    { chainId := e.chainId
      transaction_id := txPair.1.id
      timestamp := timestamp
      pool_id := pool2.id
      token0_id := poolRO.token0_id
      token1_id := poolRO.token1_id
      sender := e.sender
      recipient := e.sender
      origin := e.txn.fromAddr.getD ""
      amount0 := amount0
      amount1 := amount1
      tick := e.tick
      sqrtPriceX96 := e.sqrtPriceX96
      logIndex := e.logIndex }
  let pd : PoolPeriodData × Store PoolBucketKey PoolPeriodData :=
    updatePoolDayData timestamp pool2 s3.poolDayDatas
  let s4 : IndexerState := { s3 with poolDayDatas := pd.2 }
  let ph : PoolPeriodData × Store PoolBucketKey PoolPeriodData :=
    updatePoolHourData timestamp pool2 s4.poolHourDatas
  let s5 : IndexerState := { s4 with poolHourDatas := ph.2 }
  let p5 : PoolPeriodData × Store PoolBucketKey PoolPeriodData :=
    updatePool5MinuteData timestamp pool2 s5.pool5MinuteDatas
  let s6 : IndexerState := { s5 with pool5MinuteDatas := p5.2 }
  let td0 : TokenPeriodData × Store TokenBucketKey TokenPeriodData :=
    updateTokenDayData timestamp token0 s6.tokenDayDatas
  let td1 : TokenPeriodData × Store TokenBucketKey TokenPeriodData :=
    updateTokenDayData timestamp token1 td0.2
  let s7 : IndexerState := { s6 with tokenDayDatas := td1.2 }
  let th0 : TokenPeriodData × Store TokenBucketKey TokenPeriodData :=
    updateTokenHourData timestamp token0 s7.tokenHourDatas
  let th1 : TokenPeriodData × Store TokenBucketKey TokenPeriodData :=
    updateTokenHourData timestamp token1 th0.2
  let s8 : IndexerState := { s7 with tokenHourDatas := th1.2 }
  let poolDayData : PoolPeriodData := { pd.1 with
    volume0 := pd.1.volume0 + amount0Abs
    volume1 := pd.1.volume1 + amount1Abs
    fees0 := pd.1.fees0 + fees0
    fees1 := pd.1.fees1 + fees1
    swapCount := pd.1.swapCount + 1 }
  let poolHourData : PoolPeriodData := { ph.1 with
    volume0 := ph.1.volume0 + amount0Abs
    volume1 := ph.1.volume1 + amount1Abs
    fees0 := ph.1.fees0 + fees0
    fees1 := ph.1.fees1 + fees1
    swapCount := ph.1.swapCount + 1 }
  let pool5MinuteData : PoolPeriodData := { p5.1 with
    volume0 := p5.1.volume0 + amount0Abs
    volume1 := p5.1.volume1 + amount1Abs
    fees0 := p5.1.fees0 + fees0
    fees1 := p5.1.fees1 + fees1
    swapCount := p5.1.swapCount + 1 }
  let token0DayData : TokenPeriodData := { td0.1 with
    volume := td0.1.volume + amount0Abs
    swapCount := td0.1.swapCount + 1 }
  let token0HourData : TokenPeriodData := { th0.1 with
    volume := th0.1.volume + amount0Abs
    swapCount := th0.1.swapCount + 1 }
  let token1DayData : TokenPeriodData := { td1.1 with
    volume := td1.1.volume + amount1Abs
    swapCount := td1.1.swapCount + 1 }
  let token1HourData : TokenPeriodData := { th1.1 with
    volume := th1.1.volume + amount1Abs
    swapCount := th1.1.swapCount + 1 }
  let dayId : Int := jsFloorDiv timestamp 86400
  let hourId : Int := jsFloorDiv timestamp 3600
  let fiveMinId : Int := jsFloorDiv timestamp 300
  { s8 with
    swapRecords := s8.swapRecords.set (e.chainId, e.txn.hash, e.logIndex) swapRecord
    tokenDayDatas := (s8.tokenDayDatas.set (token0.id, dayId) token0DayData).set
      (token1.id, dayId) token1DayData
    poolDayDatas := s8.poolDayDatas.set (pool2.id, dayId) poolDayData
    poolHourDatas := s8.poolHourDatas.set (pool2.id, hourId) poolHourData
    pool5MinuteDatas := s8.pool5MinuteDatas.set (pool2.id, fiveMinId) pool5MinuteData
    tokenHourDatas := (s8.tokenHourDatas.set (token0.id, hourId) token0HourData).set
      (token1.id, hourId) token1HourData
    pools := s8.pools.set poolKey pool2
    tokens := (s8.tokens.set token0.id token0).set token1.id token1 }

/-- PoolManager.Swap.handler from src/src/handlers/swap.ts as a state
transition: missing pool or missing token drops the event without writes. -/
def swapStep (s0 : IndexerState) (e : SwapEvent) : IndexerState :=
  let poolKey : PoolId := ⟨e.chainId, e.id⟩
  match s0.pools.get poolKey with
  | none => s0
  | some poolRO =>
    match s0.tokens.get poolRO.token0_id, s0.tokens.get poolRO.token1_id with
    | some token0RO, some token1RO => swapLoaded e poolRO token0RO token1RO s0
    | _, _ => s0

/-- The success path of PoolManager.Donate.handler (src/unnamed/part_003). -/
def donateLoaded (e : DonateEvent) (poolRO : Pool) (token0RO token1RO : Token)
    (s0 : IndexerState) : IndexerState :=
  let poolKey : PoolId := ⟨e.chainId, e.id⟩
  let timestamp : Int := e.block.timestamp
  let amount0 : Int := e.amount0
  let amount1 : Int := e.amount1
  let pool1 : Pool := { poolRO with
    tvl0 := poolRO.tvl0 + amount0
    tvl1 := poolRO.tvl1 + amount1
    txCount := poolRO.txCount + 1 }
  let pool2 : Pool :=
    if pool1.liquidity > 0 then
      { pool1 with
        feeGrowthGlobal0X128 := pool1.feeGrowthGlobal0X128 + jsDiv (amount0 * Q128) pool1.liquidity
        feeGrowthGlobal1X128 := pool1.feeGrowthGlobal1X128 + jsDiv (amount1 * Q128) pool1.liquidity
        fees0 := pool1.fees0 + amount0
        fees1 := pool1.fees1 + amount1 }
    else pool1
  let token0 : Token := { token0RO with
    tvl := token0RO.tvl + amount0
    txCount := token0RO.txCount + 1 }
  let token1 : Token := { token1RO with
    tvl := token1RO.tvl + amount1
    txCount := token1RO.txCount + 1 }
  let s1 : IndexerState :=
    if pool2.hooks ≠ ADDRESS_ZERO then
      match s0.hookStats.get (e.chainId, pool2.hooks) with
      | some hs =>
        let hs2 : HookStats := { hs with
          fees0 := hs.fees0 + amount0
          fees1 := hs.fees1 + amount1
          tvl0 := hs.tvl0 + amount0
          tvl1 := hs.tvl1 + amount1 }
        { s0 with hookStats := s0.hookStats.set (e.chainId, pool2.hooks) hs2 }
      | none => s0
    else s0
  let txPair : Transaction × Store TxKey Transaction :=
    getOrCreateTransaction e.chainId e.txn.hash e.block.number timestamp s1.transactions
  let s2 : IndexerState := { s1 with transactions := txPair.2 }
  let pd : PoolPeriodData × Store PoolBucketKey PoolPeriodData :=
    updatePoolDayData timestamp pool2 s2.poolDayDatas
  let s3 : IndexerState := { s2 with poolDayDatas := pd.2 }
  let ph : PoolPeriodData × Store PoolBucketKey PoolPeriodData :=
    updatePoolHourData timestamp pool2 s3.poolHourDatas
  let s4 : IndexerState := { s3 with poolHourDatas := ph.2 }
  let p5 : PoolPeriodData × Store PoolBucketKey PoolPeriodData :=
    updatePool5MinuteData timestamp pool2 s4.pool5MinuteDatas
  let s5 : IndexerState := { s4 with pool5MinuteDatas := p5.2 }
  let td0 : TokenPeriodData × Store TokenBucketKey TokenPeriodData :=
    updateTokenDayData timestamp token0 s5.tokenDayDatas
  let td1 : TokenPeriodData × Store TokenBucketKey TokenPeriodData :=
    updateTokenDayData timestamp token1 td0.2
  let s6 : IndexerState := { s5 with tokenDayDatas := td1.2 }
  let th0 : TokenPeriodData × Store TokenBucketKey TokenPeriodData :=
    updateTokenHourData timestamp token0 s6.tokenHourDatas
  let th1 : TokenPeriodData × Store TokenBucketKey TokenPeriodData :=
    updateTokenHourData timestamp token1 th0.2
  let s7 : IndexerState := { s6 with tokenHourDatas := th1.2 }
  let poolDayData : PoolPeriodData := { pd.1 with
    fees0 := pd.1.fees0 + amount0
    fees1 := pd.1.fees1 + amount1 }
  let poolHourData : PoolPeriodData := { ph.1 with
    fees0 := ph.1.fees0 + amount0
    fees1 := ph.1.fees1 + amount1 }
  let pool5MinuteData : PoolPeriodData := { p5.1 with
    fees0 := p5.1.fees0 + amount0
    fees1 := p5.1.fees1 + amount1 }
  let dayId : Int := jsFloorDiv timestamp 86400
  let hourId : Int := jsFloorDiv timestamp 3600
  let fiveMinId : Int := jsFloorDiv timestamp 300
  { s7 with
    poolDayDatas := s7.poolDayDatas.set (pool2.id, dayId) poolDayData
    poolHourDatas := s7.poolHourDatas.set (pool2.id, hourId) poolHourData
    pool5MinuteDatas := s7.pool5MinuteDatas.set (pool2.id, fiveMinId) pool5MinuteData
    tokenDayDatas := (s7.tokenDayDatas.set (token0.id, dayId) td0.1).set
      (token1.id, dayId) td1.1
    tokenHourDatas := (s7.tokenHourDatas.set (token0.id, hourId) th0.1).set
      (token1.id, hourId) th1.1
    pools := s7.pools.set poolKey pool2
    tokens := (s7.tokens.set token0.id token0).set token1.id token1 }

/-- PoolManager.Donate.handler from src/unnamed/part_003 as a state
transition: missing pool or missing token drops the event without writes. -/
def donateStep (s0 : IndexerState) (e : DonateEvent) : IndexerState :=
  let poolKey : PoolId := ⟨e.chainId, e.id⟩
  match s0.pools.get poolKey with
  | none => s0
  | some poolRO =>
    match s0.tokens.get poolRO.token0_id, s0.tokens.get poolRO.token1_id with
    | some token0RO, some token1RO => donateLoaded e poolRO token0RO token1RO s0
    | _, _ => s0

/-- The liquidity of the position a ModifyLiquidity event targets (0 when the
position does not exist yet, matching lazy creation). -/
def posLiquidityAt (s : IndexerState) (e : ModifyLiquidityEvent) : Int :=
  ((s.positions.get (positionKeyOf e)).map (fun p => p.liquidity)).getD 0

/-- Every Position record in the store (including shadowed writes) has
nonnegative liquidity. -/
def allPositionsNonneg (s : IndexerState) : Bool :=
  s.positions.entries.all (fun kp => 0 ≤ kp.2.liquidity)

/-- Each event of the sequence removes no more liquidity than its target
position holds at the time it is applied (the guarantee the underlying
protocol provides for ModifyLiquidity events). -/
def okModifySeq (sqrtRatioAtTick : Int → Int) (s : IndexerState) :
    List ModifyLiquidityEvent → Bool
  | [] => true
  | e :: es =>
    (-(posLiquidityAt s e) ≤ e.liquidityDelta) &&
      okModifySeq sqrtRatioAtTick (modifyLiquidityStep sqrtRatioAtTick s e) es

/-- Apply a sequence of ModifyLiquidity events in order. -/
def applyModifySeq (sqrtRatioAtTick : Int → Int) (s : IndexerState)
    (es : List ModifyLiquidityEvent) : IndexerState :=
  es.foldl (modifyLiquidityStep sqrtRatioAtTick) s

/-- The first candidate tick the ascending scanner visits: `oldTick + 1`
adjusted by `tickSpacing - remainder` exactly as the source computes it. -/
def ascStartBound (oldTick tickSpacing : Int) : Int :=
  let startTick := oldTick + 1
  let remainder := jsMod startTick tickSpacing
  if remainder ≠ 0 then startTick + (tickSpacing - remainder) else startTick

/-- The first candidate tick the descending scanner visits: `oldTick`
adjusted by `- remainder` exactly as the source computes it. -/
def descStartBound (oldTick tickSpacing : Int) : Int :=
  let remainder := jsMod oldTick tickSpacing
  if remainder ≠ 0 then oldTick - remainder else oldTick

/-- Concrete pool id for witnesses. -/
def samplePoolId : PoolId := ⟨1, "p"⟩

/-- Concrete pool record for witnesses: tick 0, spacing 1, liquidity 5. -/
def samplePool : Pool :=
  { id := samplePoolId, chainId := 1, poolId := "p"
    token0_id := "t0", token1_id := "t1", hooks := ADDRESS_ZERO
    feeTier := 3000, tickSpacing := 1, tick := some 0
    sqrtPrice := 100, sqrtPriceX96 := 100, liquidity := 5
    feeGrowthGlobal0X128 := 0, feeGrowthGlobal1X128 := 0
    volume0 := 0, volume1 := 0, fees0 := 0, fees1 := 0
    tvl0 := 0, tvl1 := 0, txCount := 0, swapCount := 0
    modifyLiquidityCount := 0, positionCount := 0, activePositionCount := 0 }

/-- Concrete token record for witnesses. -/
def sampleToken (tid : String) : Token :=
  { id := tid, chainId := 1, symbol := "T", name := "T", decimals := 18
    totalSupply := 0, volume := 0, txCount := 0, poolCount := 1, swapCount := 0
    modifyLiquidityCount := 0, positionCount := 0, lpCount := 0, tvl := 0
    whitelistPools := [] }

/-- The empty store snapshot. -/
def emptyState : IndexerState :=
  { pools := ⟨[]⟩, tokens := ⟨[]⟩, ticks := ⟨[]⟩, positions := ⟨[]⟩, lps := ⟨[]⟩
    transactions := ⟨[]⟩, swapRecords := ⟨[]⟩, modifyRecords := ⟨[]⟩, hookStats := ⟨[]⟩
    poolDayDatas := ⟨[]⟩, poolHourDatas := ⟨[]⟩, pool5MinuteDatas := ⟨[]⟩
    tokenDayDatas := ⟨[]⟩, tokenHourDatas := ⟨[]⟩ }

/-- Snapshot with the sample pool, both tokens, and an initialized tick at 1. -/
def sampleStateFull : IndexerState :=
  { emptyState with
      pools := ⟨[(samplePoolId, samplePool)]⟩
      tokens := ⟨[("t0", sampleToken "t0"), ("t1", sampleToken "t1")]⟩
      ticks := ⟨[((samplePoolId, 1), createTick 1 samplePoolId "p" 1 0 0)]⟩ }

/-- Snapshot with the sample pool but neither token record. -/
def sampleStateNoTokens : IndexerState :=
  { emptyState with pools := ⟨[(samplePoolId, samplePool)]⟩ }

/-- Snapshot like sampleStateFull but with zero pool liquidity (for Donate). -/
def sampleStateLiq0 : IndexerState :=
  { sampleStateFull with pools := ⟨[(samplePoolId, { samplePool with liquidity := 0 })]⟩ }

/-- Concrete ModifyLiquidity event over the range from 0 to 1. -/
def sampleModifyEvent (delta : Int) : ModifyLiquidityEvent :=
  { chainId := 1, id := "p", sender := "a", tickLower := 0, tickUpper := 1
    liquidityDelta := delta, block := ⟨10, 1000⟩, txn := ⟨"h", none⟩, logIndex := 0 }

/-- Concrete Swap event that moves the tick from 0 to 1. -/
def sampleSwapEvent : SwapEvent :=
  { chainId := 1, id := "p", sender := "a", amount0 := -7, amount1 := 3
    sqrtPriceX96 := 90, liquidity := 4, tick := 1
    block := ⟨10, 1000⟩, txn := ⟨"h", none⟩, logIndex := 0 }

/-- Concrete Donate event with amount0 = 100: the spec's own test vector. -/
def sampleDonateEvent : DonateEvent :=
  { chainId := 1, id := "p", amount0 := 100, amount1 := 0
    block := ⟨10, 1000⟩, txn := ⟨"h", none⟩, logIndex := 0 }

/-- Concrete strictly-monotone tick table with positive values at small
ticks, playing the role of getSqrtRatioAtTick for witnesses. -/
def sampleTickTable : Int → Int := fun t => t + 1000

theorem Store.get_set_self {κ α : Type} [DecidableEq κ] (s : Store κ α) (k : κ) (v : α) :
    (s.set k v).get k = some v := by
  simp [Store.get, Store.set, storeFind]

theorem Store.get_set_ne {κ α : Type} [DecidableEq κ] (s : Store κ α) (k k' : κ) (v : α)
    (h : k' ≠ k) : (s.set k v).get k' = s.get k' := by
  simp [Store.get, Store.set, storeFind, Ne.symm h]

theorem getAmount0Delta_zero (a b : Int) : getAmount0Delta a b 0 = 0 := by
  simp [getAmount0Delta, jsDiv, Int.zero_tdiv]

theorem getAmount1Delta_zero (a b : Int) : getAmount1Delta a b 0 = 0 := by
  simp [getAmount1Delta, jsDiv, Int.zero_tdiv]

/-- C6: getFeeGrowthInside returns global - below - above with
below = outsideLower when currentTick >= tickLower and global - outsideLower
otherwise, and above = outsideUpper when currentTick < tickUpper and
global - outsideUpper otherwise, in all four branch combinations. -/
theorem feeGrowthInside_all_branches (g ol ou tl tu ct : Int) :
    (tl ≤ ct → ct < tu → getFeeGrowthInside g ol ou tl tu ct = g - ol - ou)
    ∧ (tl ≤ ct → tu ≤ ct → getFeeGrowthInside g ol ou tl tu ct = g - ol - (g - ou))
    ∧ (ct < tl → ct < tu → getFeeGrowthInside g ol ou tl tu ct = g - (g - ol) - ou)
    ∧ (ct < tl → tu ≤ ct → getFeeGrowthInside g ol ou tl tu ct = g - (g - ol) - (g - ou)) := by
  refine ⟨?_, ?_, ?_, ?_⟩ <;> intro h1 h2 <;>
    simp only [getFeeGrowthInside] <;> split_ifs <;> first | rfl | omega

/-- Witness for feeGrowthInside_all_branches at a concrete in-range input. -/
theorem feeGrowthInside_all_branches_witness :
    getFeeGrowthInside 10 3 4 0 5 2 = 10 - 3 - 4 :=
  (feeGrowthInside_all_branches 10 3 4 0 5 2).1 (by decide) (by decide)

/-- C7: both fee-growth update paths are total.  The checked variants record a
division-by-zero fault as none; they always return some, agree with the
functions the handlers run, and a zero active-liquidity denominator
short-circuits to the unchanged global accumulator. -/
theorem feeGrowth_division_never_faults (g fees amount liquidity : Int) :
    updateFeeGrowthChecked g fees liquidity = some (updateFeeGrowth g fees liquidity)
    ∧ donateFeeGrowthChecked g amount liquidity = some (donateFeeGrowth g amount liquidity)
    ∧ updateFeeGrowth g fees 0 = g
    ∧ donateFeeGrowth g amount 0 = g
    ∧ (∀ (s : IndexerState) (e : DonateEvent) (pool : Pool) (token0 token1 : Token),
        s.pools.get ⟨e.chainId, e.id⟩ = some pool →
        s.tokens.get pool.token0_id = some token0 →
        s.tokens.get pool.token1_id = some token1 →
        ((donateStep s e).pools.get ⟨e.chainId, e.id⟩).map Pool.feeGrowthGlobal0X128 =
          some (donateFeeGrowth pool.feeGrowthGlobal0X128 e.amount0 pool.liquidity)
        ∧ ((donateStep s e).pools.get ⟨e.chainId, e.id⟩).map Pool.feeGrowthGlobal1X128 =
          some (donateFeeGrowth pool.feeGrowthGlobal1X128 e.amount1 pool.liquidity)) := by
  refine ⟨?_, ?_, by simp [updateFeeGrowth], by simp [donateFeeGrowth], ?_⟩
  · simp only [updateFeeGrowthChecked, updateFeeGrowth, checkedDiv, jsDiv]
    split_ifs <;> simp_all
  · simp only [donateFeeGrowthChecked, donateFeeGrowth, checkedDiv, jsDiv]
    split_ifs <;> simp_all
  · intro s e pool token0 token1 hp h0 h1
    unfold donateStep
    dsimp only
    rw [hp]
    dsimp only
    rw [h0, h1]
    dsimp only
    unfold donateLoaded donateFeeGrowth
    dsimp only
    split_ifs <;> simp only [Store.get_set_self, Option.map_some'] <;> trivial

/-- C4 counterexample: with liquidity 1, feeGrowthInsideNow 0 and
feeGrowthInsideLast 1 the code returns 0 (JavaScript BigInt division truncates
toward zero) whereas floor division toward negative infinity gives -1. -/
theorem accruedFees_not_floor_counterexample :
    calculateAccruedFees 1 0 1 = 0 ∧ Int.fdiv (1 * (0 - 1)) (2 ^ 128) = -1 := by
  constructor
  · decide
  · decide

/-- C4 (amended): accruedFees divides rounding toward zero, not toward
negative infinity: it equals the floor quotient exactly when the product is
nonnegative, and the negated floor quotient of the negated product when the
product is negative. -/
theorem accruedFees_rounds_toward_zero (l now last : Int) :
    (0 ≤ l * (now - last) →
      calculateAccruedFees l now last = Int.fdiv (l * (now - last)) (2 ^ 128))
    ∧ (l * (now - last) < 0 →
      calculateAccruedFees l now last = -Int.fdiv (-(l * (now - last))) (2 ^ 128)) := by
  constructor
  · intro h
    unfold calculateAccruedFees jsDiv Q128
    rw [Int.tdiv_eq_ediv h (by positivity), Int.fdiv_eq_ediv _ (by positivity)]
  · intro h
    unfold calculateAccruedFees jsDiv Q128
    rw [Int.fdiv_eq_ediv _ (by positivity),
      ← Int.tdiv_eq_ediv (by omega : (0 : Int) ≤ -(l * (now - last))) (by positivity),
      Int.neg_tdiv, neg_neg]

/-- Witness for accruedFees_rounds_toward_zero in both sign regimes. -/
theorem accruedFees_rounds_toward_zero_witness :
    calculateAccruedFees 1 1 0 = Int.fdiv (1 * (1 - 0)) (2 ^ 128)
    ∧ calculateAccruedFees 1 0 1 = -Int.fdiv (-(1 * (0 - 1))) (2 ^ 128) :=
  ⟨(accruedFees_rounds_toward_zero 1 1 0).1 (by decide),
   (accruedFees_rounds_toward_zero 1 0 1).2 (by decide)⟩

/-- C9: at or below the lower boundary price calculateTokenAmounts yields
amount1 = 0; at or above the upper boundary price it yields amount0 = 0; and
negating liquidityDelta negates both signed amounts while preserving both
absolute amounts.  The tick-to-sqrt-price table is assumed strictly monotone
(a property of the sdk's TickMath). -/
theorem calculateTokenAmounts_boundary_and_negation
    (f : Int → Int) (liquidityDelta tickLower tickUpper sqrtPriceX96 : Int)
    (hmono : StrictMono f) (hlt : tickLower < tickUpper) :
    (sqrtPriceX96 ≤ f tickLower →
      (calculateTokenAmounts f liquidityDelta tickLower tickUpper sqrtPriceX96).amount1 = 0)
    ∧ (f tickUpper ≤ sqrtPriceX96 →
      (calculateTokenAmounts f liquidityDelta tickLower tickUpper sqrtPriceX96).amount0 = 0)
    ∧ (calculateTokenAmounts f (-liquidityDelta) tickLower tickUpper sqrtPriceX96).amount0 =
        -(calculateTokenAmounts f liquidityDelta tickLower tickUpper sqrtPriceX96).amount0
    ∧ (calculateTokenAmounts f (-liquidityDelta) tickLower tickUpper sqrtPriceX96).amount1 =
        -(calculateTokenAmounts f liquidityDelta tickLower tickUpper sqrtPriceX96).amount1
    ∧ (calculateTokenAmounts f (-liquidityDelta) tickLower tickUpper sqrtPriceX96).amount0Abs =
        (calculateTokenAmounts f liquidityDelta tickLower tickUpper sqrtPriceX96).amount0Abs
    ∧ (calculateTokenAmounts f (-liquidityDelta) tickLower tickUpper sqrtPriceX96).amount1Abs =
        (calculateTokenAmounts f liquidityDelta tickLower tickUpper sqrtPriceX96).amount1Abs := by
  have hfl : f tickLower < f tickUpper := hmono hlt
  refine ⟨?_, ?_, ?_, ?_, ?_, ?_⟩ <;>
    first
    | (intro h
       simp only [calculateTokenAmounts]
       split_ifs <;> first | rfl | omega)
    | (simp only [calculateTokenAmounts]
       split_ifs <;>
         first
         | rfl
         | omega
         | (simp only [neg_neg]; done)
         | (have hz : liquidityDelta = 0 := by omega
            subst hz
            simp [getAmount0Delta_zero, getAmount1Delta_zero]))

/-- Witness for calculateTokenAmounts_boundary_and_negation with the identity
tick table (strictly monotone) on a concrete range. -/
theorem calculateTokenAmounts_boundary_and_negation_witness :
    ((5 : Int) ≤ (fun t => t) (10 : Int) →
      (calculateTokenAmounts (fun t => t) 3 10 20 5).amount1 = 0)
    ∧ ((fun t => t) (20 : Int) ≤ (5 : Int) →
      (calculateTokenAmounts (fun t => t) 3 10 20 5).amount0 = 0)
    ∧ (calculateTokenAmounts (fun t => t) (-3) 10 20 5).amount0 =
        -(calculateTokenAmounts (fun t => t) 3 10 20 5).amount0
    ∧ (calculateTokenAmounts (fun t => t) (-3) 10 20 5).amount1 =
        -(calculateTokenAmounts (fun t => t) 3 10 20 5).amount1
    ∧ (calculateTokenAmounts (fun t => t) (-3) 10 20 5).amount0Abs =
        (calculateTokenAmounts (fun t => t) 3 10 20 5).amount0Abs
    ∧ (calculateTokenAmounts (fun t => t) (-3) 10 20 5).amount1Abs =
        (calculateTokenAmounts (fun t => t) 3 10 20 5).amount1Abs :=
  calculateTokenAmounts_boundary_and_negation (fun t => t) 3 10 20 5
    (fun _ _ h => h) (by decide)

theorem mem_ticksToCheckAsc (s e : Int) (hs : 0 < s) :
    ∀ (fuel : Nat) (c : Int), e - c < fuel →
      ∀ t : Int, t ∈ ticksToCheckAsc fuel c e s ↔ ∃ k : Nat, t = c + k * s ∧ t ≤ e := by
  intro fuel
  induction fuel with
  | zero =>
    intro c hc t
    simp only [ticksToCheckAsc, List.not_mem_nil, false_iff]
    rintro ⟨k, rfl, hle⟩
    have hk : (0 : Int) ≤ (k : Int) * s := mul_nonneg (by positivity) hs.le
    simp only [Nat.cast_zero] at hc
    linarith
  | succ n ih =>
    intro c hc t
    simp only [ticksToCheckAsc]
    split_ifs with hce
    · simp only [List.mem_cons]
      constructor
      · rintro (rfl | ht)
        · exact ⟨0, by simp, hce⟩
        · obtain ⟨k, rfl, hk⟩ := (ih (c + s) (by push_cast at hc ⊢; omega) t).mp ht
          exact ⟨k + 1, by push_cast; ring, hk⟩
      · rintro ⟨k, rfl, hk⟩
        cases k with
        | zero => left; simp
        | succ k' =>
          right
          refine (ih (c + s) (by push_cast at hc ⊢; omega) _).mpr ⟨k', by push_cast; ring, hk⟩
    · simp only [List.not_mem_nil, false_iff]
      rintro ⟨k, rfl, hle⟩
      have hk : (0 : Int) ≤ (k : Int) * s := mul_nonneg (by positivity) hs.le
      linarith
  
theorem mem_ticksToCheckDesc (s e : Int) (hs : 0 < s) :
    ∀ (fuel : Nat) (c : Int), c - e < fuel →
      ∀ t : Int, t ∈ ticksToCheckDesc fuel c e s ↔ ∃ k : Nat, t = c - k * s ∧ e ≤ t := by
  intro fuel
  induction fuel with
  | zero =>
    intro c hc t
    simp only [ticksToCheckDesc, List.not_mem_nil, false_iff]
    rintro ⟨k, rfl, hle⟩
    have hk : (0 : Int) ≤ (k : Int) * s := mul_nonneg (by positivity) hs.le
    simp only [Nat.cast_zero] at hc
    linarith
  | succ n ih =>
    intro c hc t
    simp only [ticksToCheckDesc]
    split_ifs with hce
    · simp only [List.mem_cons]
      constructor
      · rintro (rfl | ht)
        · exact ⟨0, by simp, hce⟩
        · obtain ⟨k, rfl, hk⟩ := (ih (c - s) (by push_cast at hc ⊢; omega) t).mp ht
          exact ⟨k + 1, by push_cast; ring, hk⟩
      · rintro ⟨k, rfl, hk⟩
        cases k with
        | zero => left; simp
        | succ k' =>
          right
          refine (ih (c - s) (by push_cast at hc ⊢; omega) _).mpr ⟨k', by push_cast; ring, hk⟩
    · simp only [List.not_mem_nil, false_iff]
      rintro ⟨k, rfl, hle⟩
      have hk : (0 : Int) ≤ (k : Int) * s := mul_nonneg (by positivity) hs.le
      linarith

theorem ticksToCheckAsc_ge (s e : Int) (hs : 0 < s) :
    ∀ (fuel : Nat) (c : Int), ∀ t ∈ ticksToCheckAsc fuel c e s, c ≤ t := by
  intro fuel
  induction fuel with
  | zero => intro c t ht; simp [ticksToCheckAsc] at ht
  | succ n ih =>
    intro c t ht
    simp only [ticksToCheckAsc] at ht
    split_ifs at ht with hce
    · rcases List.mem_cons.mp ht with rfl | ht
      · exact le_refl t
      · have := ih (c + s) t ht
        omega
    · simp at ht

theorem ticksToCheckDesc_le (s e : Int) (hs : 0 < s) :
    ∀ (fuel : Nat) (c : Int), ∀ t ∈ ticksToCheckDesc fuel c e s, t ≤ c := by
  intro fuel
  induction fuel with
  | zero => intro c t ht; simp [ticksToCheckDesc] at ht
  | succ n ih =>
    intro c t ht
    simp only [ticksToCheckDesc] at ht
    split_ifs at ht with hce
    · rcases List.mem_cons.mp ht with rfl | ht
      · exact le_refl t
      · have := ih (c - s) t ht
        omega
    · simp at ht

theorem ticksToCheckAsc_pairwise (s e : Int) (hs : 0 < s) :
    ∀ (fuel : Nat) (c : Int), List.Pairwise (· < ·) (ticksToCheckAsc fuel c e s) := by
  intro fuel
  induction fuel with
  | zero => intro c; simp [ticksToCheckAsc]
  | succ n ih =>
    intro c
    simp only [ticksToCheckAsc]
    split_ifs with hce
    · exact List.Pairwise.cons
        (fun t ht => by have := ticksToCheckAsc_ge s e hs n (c + s) t ht; omega)
        (ih (c + s))
    · simp

theorem ticksToCheckDesc_pairwise (s e : Int) (hs : 0 < s) :
    ∀ (fuel : Nat) (c : Int), List.Pairwise (· > ·) (ticksToCheckDesc fuel c e s) := by
  intro fuel
  induction fuel with
  | zero => intro c; simp [ticksToCheckDesc]
  | succ n ih =>
    intro c
    simp only [ticksToCheckDesc]
    split_ifs with hce
    · exact List.Pairwise.cons
        (fun t ht => by have := ticksToCheckDesc_le s e hs n (c - s) t ht; omega)
        (ih (c - s))
    · simp

theorem exists_add_mul_iff (s c t : Int) (hs : 0 < s) (hc : s ∣ c) :
    (∃ k : Nat, t = c + k * s) ↔ (s ∣ t ∧ c ≤ t) := by
  constructor
  · rintro ⟨k, rfl⟩
    have hk : (0 : Int) ≤ (k : Int) * s := mul_nonneg (by positivity) hs.le
    exact ⟨dvd_add hc (Dvd.intro_left _ rfl), by linarith⟩
  · rintro ⟨ht, hct⟩
    obtain ⟨m, rfl⟩ := ht
    obtain ⟨q, rfl⟩ := hc
    have hqm : q ≤ m := le_of_mul_le_mul_left hct hs
    refine ⟨(m - q).toNat, ?_⟩
    have hcast : ((m - q).toNat : Int) = m - q := Int.toNat_of_nonneg (by omega)
    rw [hcast]
    ring

theorem exists_sub_mul_iff (s c t : Int) (hs : 0 < s) (hc : s ∣ c) :
    (∃ k : Nat, t = c - k * s) ↔ (s ∣ t ∧ t ≤ c) := by
  constructor
  · rintro ⟨k, rfl⟩
    have hk : (0 : Int) ≤ (k : Int) * s := mul_nonneg (by positivity) hs.le
    exact ⟨Dvd.dvd.sub hc (Dvd.intro_left _ rfl), by linarith⟩
  · rintro ⟨ht, hct⟩
    obtain ⟨m, rfl⟩ := ht
    obtain ⟨q, rfl⟩ := hc
    have hqm : m ≤ q := le_of_mul_le_mul_left hct hs
    refine ⟨(q - m).toNat, ?_⟩
    have hcast : ((q - m).toNat : Int) = q - m := Int.toNat_of_nonneg (by omega)
    rw [hcast]
    ring

theorem ascStartBound_dvd (oldTick s : Int) (_hs : 0 < s) : s ∣ ascStartBound oldTick s := by
  unfold ascStartBound jsMod
  have hd := Int.tdiv_add_tmod (oldTick + 1) s
  dsimp only
  split_ifs with hr
  · refine ⟨(oldTick + 1).tdiv s + 1, ?_⟩
    have he : s * ((oldTick + 1).tdiv s + 1) = s * (oldTick + 1).tdiv s + s := by ring
    linarith
  · exact Int.dvd_of_tmod_eq_zero (by simpa using hr)

theorem descStartBound_dvd (oldTick s : Int) (_hs : 0 < s) : s ∣ descStartBound oldTick s := by
  unfold descStartBound jsMod
  have hd := Int.tdiv_add_tmod oldTick s
  dsimp only
  split_ifs with hr
  · exact ⟨oldTick.tdiv s, by linarith⟩
  · have h0 : oldTick.tmod s = 0 := by simpa using hr
    exact Int.dvd_of_tmod_eq_zero h0

theorem ascStartBound_le_iff (oldTick s t : Int) (hs : 0 < s) (hpos : 0 ≤ oldTick + 1)
    (ht : s ∣ t) : ascStartBound oldTick s ≤ t ↔ oldTick < t := by
  have hd := Int.tdiv_add_tmod (oldTick + 1) s
  have hr0 : 0 ≤ (oldTick + 1).tmod s := Int.tmod_nonneg s hpos
  have hrs : (oldTick + 1).tmod s < s := Int.tmod_lt_of_pos (oldTick + 1) hs
  unfold ascStartBound jsMod
  dsimp only
  split_ifs with hr
  · obtain ⟨m, rfl⟩ := ht
    have hr1 : 1 ≤ (oldTick + 1).tmod s := by omega
    have he : s * ((oldTick + 1).tdiv s + 1) = s * (oldTick + 1).tdiv s + s := by ring
    constructor
    · intro hle
      linarith
    · intro hlt
      have hq : s * (oldTick + 1).tdiv s < s * m := by linarith
      have hqm : (oldTick + 1).tdiv s + 1 ≤ m := by
        have := lt_of_mul_lt_mul_left hq hs.le
        omega
      have := mul_le_mul_of_nonneg_left hqm hs.le
      linarith
  · omega

theorem descStartBound_ge_iff (oldTick s t : Int) (hs : 0 < s) (hpos : 0 ≤ oldTick)
    (ht : s ∣ t) : t ≤ descStartBound oldTick s ↔ t ≤ oldTick := by
  have hd := Int.tdiv_add_tmod oldTick s
  have hr0 : 0 ≤ oldTick.tmod s := Int.tmod_nonneg s hpos
  have hrs : oldTick.tmod s < s := Int.tmod_lt_of_pos oldTick hs
  unfold descStartBound jsMod
  dsimp only
  split_ifs with hr
  · obtain ⟨m, rfl⟩ := ht
    have he : s * (oldTick.tdiv s + 1) = s * oldTick.tdiv s + s := by ring
    constructor
    · intro hle
      linarith
    · intro hlt
      have hq : s * m < s * (oldTick.tdiv s + 1) := by linarith
      have hqm : m ≤ oldTick.tdiv s := by
        have := lt_of_mul_lt_mul_left hq hs.le
        omega
      have := mul_le_mul_of_nonneg_left hqm hs.le
      linarith
  · omega

theorem crossed_asc_eq (ini : Int → Bool) (oldTick newTick s : Int) (h : oldTick < newTick) :
    getInitializedTicksCrossed ini oldTick newTick s =
      (ticksToCheckAsc ((newTick - ascStartBound oldTick s).toNat + 2)
        (ascStartBound oldTick s) newTick s).filter ini := by
  unfold getInitializedTicksCrossed ascStartBound jsMod
  dsimp only
  split_ifs <;> first | rfl | omega

theorem crossed_desc_eq (ini : Int → Bool) (oldTick newTick s : Int) (h : newTick < oldTick) :
    getInitializedTicksCrossed ini oldTick newTick s =
      (ticksToCheckDesc ((descStartBound oldTick s - (newTick + 1)).toNat + 2)
        (descStartBound oldTick s) (newTick + 1) s).filter ini := by
  unfold getInitializedTicksCrossed descStartBound jsMod
  dsimp only
  split_ifs <;> first | rfl | omega

theorem mem_crossed_asc (ini : Int → Bool) (oldTick newTick s t : Int)
    (hs : 0 < s) (h : oldTick < newTick) :
    t ∈ getInitializedTicksCrossed ini oldTick newTick s ↔
      (ini t = true ∧ jsMod t s = 0 ∧ ascStartBound oldTick s ≤ t ∧ t ≤ newTick) := by
  have hdvd := ascStartBound_dvd oldTick s hs
  rw [crossed_asc_eq ini oldTick newTick s h, List.mem_filter,
    mem_ticksToCheckAsc s newTick hs _ _ (by omega)]
  unfold jsMod
  constructor
  · rintro ⟨⟨k, hk, hle⟩, hini⟩
    have hd := (exists_add_mul_iff s _ t hs hdvd).mp ⟨k, hk⟩
    exact ⟨hini, Int.tmod_eq_zero_of_dvd hd.1, hd.2, hle⟩
  · rintro ⟨hini, hmod, hge, hle⟩
    obtain ⟨k, hk⟩ := (exists_add_mul_iff s _ t hs hdvd).mpr
      ⟨Int.dvd_of_tmod_eq_zero hmod, hge⟩
    exact ⟨⟨k, hk, hle⟩, hini⟩

theorem mem_crossed_desc (ini : Int → Bool) (oldTick newTick s t : Int)
    (hs : 0 < s) (h : newTick < oldTick) :
    t ∈ getInitializedTicksCrossed ini oldTick newTick s ↔
      (ini t = true ∧ jsMod t s = 0 ∧ newTick < t ∧ t ≤ descStartBound oldTick s) := by
  have hdvd := descStartBound_dvd oldTick s hs
  rw [crossed_desc_eq ini oldTick newTick s h, List.mem_filter,
    mem_ticksToCheckDesc s (newTick + 1) hs _ _ (by omega)]
  unfold jsMod
  constructor
  · rintro ⟨⟨k, hk, hle⟩, hini⟩
    have hd := (exists_sub_mul_iff s _ t hs hdvd).mp ⟨k, hk⟩
    exact ⟨hini, Int.tmod_eq_zero_of_dvd hd.1, by omega, hd.2⟩
  · rintro ⟨hini, hmod, hgt, hle⟩
    obtain ⟨k, hk⟩ := (exists_sub_mul_iff s _ t hs hdvd).mpr
      ⟨Int.dvd_of_tmod_eq_zero hmod, hle⟩
    exact ⟨⟨k, hk, by omega⟩, hini⟩

theorem crossed_asc_sorted (ini : Int → Bool) (oldTick newTick s : Int)
    (hs : 0 < s) (h : oldTick < newTick) :
    List.Pairwise (· < ·) (getInitializedTicksCrossed ini oldTick newTick s) := by
  rw [crossed_asc_eq ini oldTick newTick s h]
  exact (ticksToCheckAsc_pairwise s newTick hs _ _).filter ini

theorem crossed_desc_sorted (ini : Int → Bool) (oldTick newTick s : Int)
    (hs : 0 < s) (h : newTick < oldTick) :
    List.Pairwise (· > ·) (getInitializedTicksCrossed ini oldTick newTick s) := by
  rw [crossed_desc_eq ini oldTick newTick s h]
  exact (ticksToCheckDesc_pairwise s (newTick + 1) hs _ _).filter ini

theorem crossed_self_empty (ini : Int → Bool) (t s : Int) :
    getInitializedTicksCrossed ini t t s = [] := by
  unfold getInitializedTicksCrossed
  simp

/-- C2 counterexample: with initialized ticks -20,-10,0,10,20 and
tickSpacing 10, a descending move from oldTick 20 to newTick 0 returns
[20, 10]: it contains 20, which is outside the claimed interval [newTick,
oldTick) = [0, 20), and omits the initialized aligned tick 0 that lies in
that interval; an ascending move from -6 to 20 skips the initialized aligned
tick 0 of (-6, 20]; and a descending move from -5 to -25 includes 0, which
lies outside [-25, -5) entirely. -/
theorem crossedTicks_claim_counterexample :
    getInitializedTicksCrossed
        (fun t => decide (t = -20 ∨ t = -10 ∨ t = 0 ∨ t = 10 ∨ t = 20)) 20 0 10
      = [20, 10]
    ∧ getInitializedTicksCrossed
        (fun t => decide (t = -20 ∨ t = -10 ∨ t = 0 ∨ t = 10 ∨ t = 20)) 20 0 10
      ≠ [10, 0]
    ∧ getInitializedTicksCrossed
        (fun t => decide (t = -20 ∨ t = -10 ∨ t = 0 ∨ t = 10 ∨ t = 20)) (-6) 20 10
      = [10, 20]
    ∧ getInitializedTicksCrossed
        (fun t => decide (t = -20 ∨ t = -10 ∨ t = 0 ∨ t = 10 ∨ t = 20)) (-5) (-25) 10
      = [0, -10, -20] := by
  refine ⟨by decide, by decide, by decide, by decide⟩

/-- C2 (amended): for positive tickSpacing, getInitializedTicksCrossed of
equal ticks is empty; an ascending move returns exactly the initialized
spacing-aligned ticks in [ascStartBound oldTick, newTick] in strictly
increasing order, and when oldTick + 1 is nonnegative this interval is
exactly (oldTick, newTick]; a descending move returns exactly the initialized
spacing-aligned ticks in (newTick, descStartBound oldTick] in strictly
decreasing order, and when oldTick is nonnegative this interval is exactly
(newTick, oldTick] — i.e. the half-open interval excludes newTick and
includes oldTick, and for negative unaligned starting ticks the JavaScript
remainder sign makes the computed bound deviate from correct rounding. -/
theorem crossedTicks_characterization (ini : Int → Bool)
    (oldTick newTick tickSpacing : Int) (hs : 0 < tickSpacing) :
    getInitializedTicksCrossed ini oldTick oldTick tickSpacing = []
    ∧ (oldTick < newTick →
        (∀ t : Int, t ∈ getInitializedTicksCrossed ini oldTick newTick tickSpacing ↔
          (ini t = true ∧ jsMod t tickSpacing = 0 ∧
            ascStartBound oldTick tickSpacing ≤ t ∧ t ≤ newTick))
        ∧ List.Pairwise (· < ·) (getInitializedTicksCrossed ini oldTick newTick tickSpacing)
        ∧ (0 ≤ oldTick + 1 →
            ∀ t : Int, t ∈ getInitializedTicksCrossed ini oldTick newTick tickSpacing ↔
              (ini t = true ∧ jsMod t tickSpacing = 0 ∧ oldTick < t ∧ t ≤ newTick)))
    ∧ (newTick < oldTick →
        (∀ t : Int, t ∈ getInitializedTicksCrossed ini oldTick newTick tickSpacing ↔
          (ini t = true ∧ jsMod t tickSpacing = 0 ∧ newTick < t ∧
            t ≤ descStartBound oldTick tickSpacing))
        ∧ List.Pairwise (· > ·) (getInitializedTicksCrossed ini oldTick newTick tickSpacing)
        ∧ (0 ≤ oldTick →
            ∀ t : Int, t ∈ getInitializedTicksCrossed ini oldTick newTick tickSpacing ↔
              (ini t = true ∧ jsMod t tickSpacing = 0 ∧ newTick < t ∧ t ≤ oldTick))) := by
  refine ⟨crossed_self_empty ini oldTick tickSpacing, fun h => ⟨?_, ?_, ?_⟩, fun h => ⟨?_, ?_, ?_⟩⟩
  · exact fun t => mem_crossed_asc ini oldTick newTick tickSpacing t hs h
  · exact crossed_asc_sorted ini oldTick newTick tickSpacing hs h
  · intro hpos t
    rw [mem_crossed_asc ini oldTick newTick tickSpacing t hs h]
    constructor
    · rintro ⟨hini, hmod, hge, hle⟩
      have hdvd : tickSpacing ∣ t := Int.dvd_of_tmod_eq_zero (by simpa [jsMod] using hmod)
      exact ⟨hini, hmod,
        (ascStartBound_le_iff oldTick tickSpacing t hs hpos hdvd).mp hge, hle⟩
    · rintro ⟨hini, hmod, hgt, hle⟩
      have hdvd : tickSpacing ∣ t := Int.dvd_of_tmod_eq_zero (by simpa [jsMod] using hmod)
      exact ⟨hini, hmod,
        (ascStartBound_le_iff oldTick tickSpacing t hs hpos hdvd).mpr hgt, hle⟩
  · exact fun t => mem_crossed_desc ini oldTick newTick tickSpacing t hs h
  · exact crossed_desc_sorted ini oldTick newTick tickSpacing hs h
  · intro hpos t
    rw [mem_crossed_desc ini oldTick newTick tickSpacing t hs h]
    constructor
    · rintro ⟨hini, hmod, hgt, hle⟩
      have hdvd : tickSpacing ∣ t := Int.dvd_of_tmod_eq_zero (by simpa [jsMod] using hmod)
      exact ⟨hini, hmod, hgt,
        (descStartBound_ge_iff oldTick tickSpacing t hs hpos hdvd).mp hle⟩
    · rintro ⟨hini, hmod, hgt, hle⟩
      have hdvd : tickSpacing ∣ t := Int.dvd_of_tmod_eq_zero (by simpa [jsMod] using hmod)
      exact ⟨hini, hmod, hgt,
        (descStartBound_ge_iff oldTick tickSpacing t hs hpos hdvd).mpr hle⟩

/-- Witness for crossedTicks_characterization at spacing 10 with every tick
initialized. -/
theorem crossedTicks_characterization_witness :
    getInitializedTicksCrossed (fun _ => true) 0 0 10 = []
    ∧ List.Pairwise (· < ·) (getInitializedTicksCrossed (fun _ => true) 0 20 10) :=
  ⟨(crossedTicks_characterization (fun _ => true) 0 20 10 (by decide)).1,
   ((crossedTicks_characterization (fun _ => true) 0 20 10 (by decide)).2.1 (by decide)).2.1⟩

/-- C1 (amended): a ModifyLiquidity, Swap or Donate event whose pool is
missing leaves the state unchanged; a Swap or Donate whose pool exists but
whose token record is missing also leaves the state unchanged; but a
ModifyLiquidity whose pool exists and whose token record is missing still
writes the lazily-created LiquidityProvider record (and changes nothing
else), because getOrCreateLiquidityProvider runs in the batched load before
the token check. -/
theorem dropped_events_write_at_most_lp (f : Int → Int) (s : IndexerState)
    (em : ModifyLiquidityEvent) (es : SwapEvent) (ed : DonateEvent) :
    (s.pools.get ⟨em.chainId, em.id⟩ = none → modifyLiquidityStep f s em = s)
    ∧ (∀ pool : Pool, s.pools.get ⟨em.chainId, em.id⟩ = some pool →
        (s.tokens.get pool.token0_id = none ∨ s.tokens.get pool.token1_id = none) →
        modifyLiquidityStep f s em =
          { s with lps := (getOrCreateLiquidityProvider ⟨em.chainId, em.id⟩ em.chainId
              em.sender em.block.timestamp em.block.number s.lps).2 })
    ∧ (s.pools.get ⟨es.chainId, es.id⟩ = none → swapStep s es = s)
    ∧ (∀ pool : Pool, s.pools.get ⟨es.chainId, es.id⟩ = some pool →
        (s.tokens.get pool.token0_id = none ∨ s.tokens.get pool.token1_id = none) →
        swapStep s es = s)
    ∧ (s.pools.get ⟨ed.chainId, ed.id⟩ = none → donateStep s ed = s)
    ∧ (∀ pool : Pool, s.pools.get ⟨ed.chainId, ed.id⟩ = some pool →
        (s.tokens.get pool.token0_id = none ∨ s.tokens.get pool.token1_id = none) →
        donateStep s ed = s) := by
  refine ⟨?_, ?_, ?_, ?_, ?_, ?_⟩
  · intro hp
    unfold modifyLiquidityStep
    dsimp only
    rw [hp]
  · intro pool hp htok
    unfold modifyLiquidityStep
    dsimp only
    rw [hp]
    dsimp only
    rcases htok with h0 | h1
    · rw [h0]
    · rw [h1]
      cases s.tokens.get pool.token0_id <;> rfl
  · intro hp
    unfold swapStep
    dsimp only
    rw [hp]
  · intro pool hp htok
    unfold swapStep
    dsimp only
    rw [hp]
    dsimp only
    rcases htok with h0 | h1
    · rw [h0]
    · rw [h1]
      cases s.tokens.get pool.token0_id <;> rfl
  · intro hp
    unfold donateStep
    dsimp only
    rw [hp]
  · intro pool hp htok
    unfold donateStep
    dsimp only
    rw [hp]
    dsimp only
    rcases htok with h0 | h1
    · rw [h0]
    · rw [h1]
      cases s.tokens.get pool.token0_id <;> rfl

/-- C1 counterexample: a ModifyLiquidity event on a state whose Pool exists
but whose Token records are absent does NOT leave the state unchanged — the
handler persists a fresh LiquidityProvider record before returning. -/
theorem modify_missing_token_state_change_counterexample :
    modifyLiquidityStep sampleTickTable sampleStateNoTokens (sampleModifyEvent 1)
      ≠ sampleStateNoTokens
    ∧ ((modifyLiquidityStep sampleTickTable sampleStateNoTokens (sampleModifyEvent 1)).lps.get
        (1, samplePoolId, "a")).isSome = true
    ∧ (sampleStateNoTokens.lps.get (1, samplePoolId, "a")).isSome = false := by
  refine ⟨by decide, by decide, by decide⟩

/-- Witness for dropped_events_write_at_most_lp on concrete states: an empty
store drops Swap and Donate without change, and a pool-only store sends
ModifyLiquidity to exactly the LiquidityProvider write. -/
theorem dropped_events_write_at_most_lp_witness :
    swapStep emptyState sampleSwapEvent = emptyState
    ∧ donateStep emptyState sampleDonateEvent = emptyState
    ∧ modifyLiquidityStep sampleTickTable sampleStateNoTokens (sampleModifyEvent 1) =
        { sampleStateNoTokens with
            lps := (getOrCreateLiquidityProvider ⟨1, "p"⟩ 1 "a" 1000 10
              sampleStateNoTokens.lps).2 } :=
  ⟨(dropped_events_write_at_most_lp sampleTickTable emptyState (sampleModifyEvent 1)
      sampleSwapEvent sampleDonateEvent).2.2.1 (by decide),
   (dropped_events_write_at_most_lp sampleTickTable emptyState (sampleModifyEvent 1)
      sampleSwapEvent sampleDonateEvent).2.2.2.2.1 (by decide),
   (dropped_events_write_at_most_lp sampleTickTable sampleStateNoTokens (sampleModifyEvent 1)
      sampleSwapEvent sampleDonateEvent).2.1 samplePool (by decide) (Or.inl (by decide))⟩

/-- C8: a Donate on an existing pool with zero liquidity adds the donated
amounts to pool tvl while leaving both fee-growth accumulators and both
cumulative fee counters unchanged. -/
theorem donate_zero_liquidity_tvl_only (s : IndexerState) (e : DonateEvent)
    (pool : Pool) (token0 token1 : Token)
    (hp : s.pools.get ⟨e.chainId, e.id⟩ = some pool)
    (h0 : s.tokens.get pool.token0_id = some token0)
    (h1 : s.tokens.get pool.token1_id = some token1)
    (hliq : pool.liquidity = 0) :
    ((donateStep s e).pools.get ⟨e.chainId, e.id⟩).map Pool.tvl0 = some (pool.tvl0 + e.amount0)
    ∧ ((donateStep s e).pools.get ⟨e.chainId, e.id⟩).map Pool.tvl1 = some (pool.tvl1 + e.amount1)
    ∧ ((donateStep s e).pools.get ⟨e.chainId, e.id⟩).map Pool.feeGrowthGlobal0X128 =
        some pool.feeGrowthGlobal0X128
    ∧ ((donateStep s e).pools.get ⟨e.chainId, e.id⟩).map Pool.feeGrowthGlobal1X128 =
        some pool.feeGrowthGlobal1X128
    ∧ ((donateStep s e).pools.get ⟨e.chainId, e.id⟩).map Pool.fees0 = some pool.fees0
    ∧ ((donateStep s e).pools.get ⟨e.chainId, e.id⟩).map Pool.fees1 = some pool.fees1 := by
  unfold donateStep
  dsimp only
  rw [hp]
  dsimp only
  rw [h0, h1]
  dsimp only
  unfold donateLoaded
  dsimp only
  simp only [hliq, lt_irrefl, if_false, apply_ite, ite_self, Store.get_set_self,
    Option.map_some']
  trivial

/-- Witness for donate_zero_liquidity_tvl_only at the spec's own test vector
(amount0 = 100, amount1 = 0 on a zero-liquidity pool). -/
theorem donate_zero_liquidity_tvl_only_witness :
    ((donateStep sampleStateLiq0 sampleDonateEvent).pools.get ⟨1, "p"⟩).map Pool.tvl0 =
      some ({ samplePool with liquidity := 0 }.tvl0 + 100)
    ∧ ((donateStep sampleStateLiq0 sampleDonateEvent).pools.get ⟨1, "p"⟩).map Pool.tvl1 =
      some ({ samplePool with liquidity := 0 }.tvl1 + 0)
    ∧ ((donateStep sampleStateLiq0 sampleDonateEvent).pools.get ⟨1, "p"⟩).map
        Pool.feeGrowthGlobal0X128 = some { samplePool with liquidity := 0 }.feeGrowthGlobal0X128
    ∧ ((donateStep sampleStateLiq0 sampleDonateEvent).pools.get ⟨1, "p"⟩).map
        Pool.feeGrowthGlobal1X128 = some { samplePool with liquidity := 0 }.feeGrowthGlobal1X128
    ∧ ((donateStep sampleStateLiq0 sampleDonateEvent).pools.get ⟨1, "p"⟩).map Pool.fees0 =
      some { samplePool with liquidity := 0 }.fees0
    ∧ ((donateStep sampleStateLiq0 sampleDonateEvent).pools.get ⟨1, "p"⟩).map Pool.fees1 =
      some { samplePool with liquidity := 0 }.fees1 :=
  donate_zero_liquidity_tvl_only sampleStateLiq0 sampleDonateEvent
    { samplePool with liquidity := 0 } (sampleToken "t0") (sampleToken "t1")
    (by decide) (by decide) (by decide) (by decide)


theorem updatePoolDayData_fst_fees0 (timestamp : Int) (pool : Pool)
    (store : Store PoolBucketKey PoolPeriodData) :
    (updatePoolDayData timestamp pool store).1.fees0 =
      ((store.get (pool.id, jsFloorDiv timestamp 86400)).map PoolPeriodData.fees0).getD 0 := by
  unfold updatePoolDayData
  dsimp only
  cases hd : store.get (pool.id, jsFloorDiv timestamp 86400) <;>
    (dsimp only; split_ifs <;> rfl)

theorem updatePoolDayData_fst_fees1 (timestamp : Int) (pool : Pool)
    (store : Store PoolBucketKey PoolPeriodData) :
    (updatePoolDayData timestamp pool store).1.fees1 =
      ((store.get (pool.id, jsFloorDiv timestamp 86400)).map PoolPeriodData.fees1).getD 0 := by
  unfold updatePoolDayData
  dsimp only
  cases hd : store.get (pool.id, jsFloorDiv timestamp 86400) <;>
    (dsimp only; split_ifs <;> rfl)

theorem updatePoolHourData_fst_fees0 (timestamp : Int) (pool : Pool)
    (store : Store PoolBucketKey PoolPeriodData) :
    (updatePoolHourData timestamp pool store).1.fees0 =
      ((store.get (pool.id, jsFloorDiv timestamp 3600)).map PoolPeriodData.fees0).getD 0 := by
  unfold updatePoolHourData
  dsimp only
  cases hd : store.get (pool.id, jsFloorDiv timestamp 3600) <;>
    (dsimp only; split_ifs <;> rfl)

theorem updatePoolHourData_fst_fees1 (timestamp : Int) (pool : Pool)
    (store : Store PoolBucketKey PoolPeriodData) :
    (updatePoolHourData timestamp pool store).1.fees1 =
      ((store.get (pool.id, jsFloorDiv timestamp 3600)).map PoolPeriodData.fees1).getD 0 := by
  unfold updatePoolHourData
  dsimp only
  cases hd : store.get (pool.id, jsFloorDiv timestamp 3600) <;>
    (dsimp only; split_ifs <;> rfl)

theorem updatePool5MinuteData_fst_fees0 (timestamp : Int) (pool : Pool)
    (store : Store PoolBucketKey PoolPeriodData) :
    (updatePool5MinuteData timestamp pool store).1.fees0 =
      ((store.get (pool.id, jsFloorDiv timestamp 300)).map PoolPeriodData.fees0).getD 0 := by
  unfold updatePool5MinuteData
  dsimp only
  cases hd : store.get (pool.id, jsFloorDiv timestamp 300) <;>
    (dsimp only; split_ifs <;> rfl)

theorem updatePool5MinuteData_fst_fees1 (timestamp : Int) (pool : Pool)
    (store : Store PoolBucketKey PoolPeriodData) :
    (updatePool5MinuteData timestamp pool store).1.fees1 =
      ((store.get (pool.id, jsFloorDiv timestamp 300)).map PoolPeriodData.fees1).getD 0 := by
  unfold updatePool5MinuteData
  dsimp only
  cases hd : store.get (pool.id, jsFloorDiv timestamp 300) <;>
    (dsimp only; split_ifs <;> rfl)

/-- C10: a Donate on an existing pool with zero liquidity still adds the
donated amounts to the fees of the pool's day, hour, and 5-minute interval
buckets, while the pool's own cumulative fees0/fees1 stay unchanged — so
interval fee sums can exceed the pool's fee counters. -/
theorem donate_zero_liquidity_interval_fees (s : IndexerState) (e : DonateEvent)
    (pool : Pool) (token0 token1 : Token)
    (hp : s.pools.get ⟨e.chainId, e.id⟩ = some pool)
    (h0 : s.tokens.get pool.token0_id = some token0)
    (h1 : s.tokens.get pool.token1_id = some token1)
    (hliq : pool.liquidity = 0) :
    ((donateStep s e).poolDayDatas.get (pool.id, jsFloorDiv e.block.timestamp 86400)).map
        PoolPeriodData.fees0 =
      some (((s.poolDayDatas.get (pool.id, jsFloorDiv e.block.timestamp 86400)).map
        PoolPeriodData.fees0).getD 0 + e.amount0)
    ∧ ((donateStep s e).poolDayDatas.get (pool.id, jsFloorDiv e.block.timestamp 86400)).map
        PoolPeriodData.fees1 =
      some (((s.poolDayDatas.get (pool.id, jsFloorDiv e.block.timestamp 86400)).map
        PoolPeriodData.fees1).getD 0 + e.amount1)
    ∧ ((donateStep s e).poolHourDatas.get (pool.id, jsFloorDiv e.block.timestamp 3600)).map
        PoolPeriodData.fees0 =
      some (((s.poolHourDatas.get (pool.id, jsFloorDiv e.block.timestamp 3600)).map
        PoolPeriodData.fees0).getD 0 + e.amount0)
    ∧ ((donateStep s e).poolHourDatas.get (pool.id, jsFloorDiv e.block.timestamp 3600)).map
        PoolPeriodData.fees1 =
      some (((s.poolHourDatas.get (pool.id, jsFloorDiv e.block.timestamp 3600)).map
        PoolPeriodData.fees1).getD 0 + e.amount1)
    ∧ ((donateStep s e).pool5MinuteDatas.get (pool.id, jsFloorDiv e.block.timestamp 300)).map
        PoolPeriodData.fees0 =
      some (((s.pool5MinuteDatas.get (pool.id, jsFloorDiv e.block.timestamp 300)).map
        PoolPeriodData.fees0).getD 0 + e.amount0)
    ∧ ((donateStep s e).pool5MinuteDatas.get (pool.id, jsFloorDiv e.block.timestamp 300)).map
        PoolPeriodData.fees1 =
      some (((s.pool5MinuteDatas.get (pool.id, jsFloorDiv e.block.timestamp 300)).map
        PoolPeriodData.fees1).getD 0 + e.amount1)
    ∧ ((donateStep s e).pools.get ⟨e.chainId, e.id⟩).map Pool.fees0 = some pool.fees0
    ∧ ((donateStep s e).pools.get ⟨e.chainId, e.id⟩).map Pool.fees1 = some pool.fees1 := by
  unfold donateStep
  dsimp only
  rw [hp]
  dsimp only
  rw [h0, h1]
  dsimp only
  unfold donateLoaded
  dsimp only
  simp only [hliq, gt_iff_lt, lt_self_iff_false, if_false]
  by_cases hh : pool.hooks = ADDRESS_ZERO
  · simp only [hh, ne_eq, not_true_eq_false, if_false]
    simp only [Store.get_set_self, Option.map_some', updatePoolDayData_fst_fees0,
      updatePoolDayData_fst_fees1, updatePoolHourData_fst_fees0, updatePoolHourData_fst_fees1,
      updatePool5MinuteData_fst_fees0, updatePool5MinuteData_fst_fees1]
    trivial
  · simp only [ne_eq, hh, not_false_eq_true, if_true]
    cases hhs : s.hookStats.get (e.chainId, pool.hooks) <;>
      simp only [hhs, Store.get_set_self, Option.map_some', updatePoolDayData_fst_fees0,
        updatePoolDayData_fst_fees1, updatePoolHourData_fst_fees0, updatePoolHourData_fst_fees1,
        updatePool5MinuteData_fst_fees0, updatePool5MinuteData_fst_fees1] <;>
      trivial

theorem jsAbs_neg (x : Int) : jsAbs (-x) = jsAbs x := by
  unfold jsAbs
  split_ifs <;> omega

theorem foldl_updateTickCrossed_not_mem (g0 g1 : Int) (pk : PoolId) (l : List Int)
    (m : Store TickKey Tick) (t : Int) (ht : t ∉ l) :
    (l.foldl (fun acc tickIdx => updateTickCrossed (pk, tickIdx) g0 g1 acc) m).get (pk, t) =
      m.get (pk, t) := by
  induction l generalizing m with
  | nil => rfl
  | cons a l ih =>
    have hta : t ≠ a := fun h => ht (h ▸ List.mem_cons_self a l)
    have ht' : t ∉ l := fun h => ht (List.mem_cons_of_mem a h)
    simp only [List.foldl_cons]
    rw [ih _ ht']
    unfold updateTickCrossed
    cases hma : m.get (pk, a) with
    | none => rfl
    | some tk => exact Store.get_set_ne m (pk, a) (pk, t) _ (by simp [hta])

theorem foldl_updateTickCrossed_mem (g0 g1 : Int) (pk : PoolId) (l : List Int)
    (hnd : l.Nodup) (m : Store TickKey Tick) (t : Int) (ht : t ∈ l)
    (tk : Tick) (htk : m.get (pk, t) = some tk) :
    (l.foldl (fun acc tickIdx => updateTickCrossed (pk, tickIdx) g0 g1 acc) m).get (pk, t) =
      some { tk with
        feeGrowthOutside0X128 := flipFeeGrowthOutside g0 tk.feeGrowthOutside0X128
        feeGrowthOutside1X128 := flipFeeGrowthOutside g1 tk.feeGrowthOutside1X128 } := by
  induction l generalizing m with
  | nil => cases ht
  | cons a l ih =>
    simp only [List.foldl_cons]
    rcases List.mem_cons.mp ht with rfl | htl
    · have hnotl : t ∉ l := (List.nodup_cons.mp hnd).1
      rw [foldl_updateTickCrossed_not_mem g0 g1 pk l _ t hnotl]
      unfold updateTickCrossed
      rw [htk]
      exact Store.get_set_self m (pk, t) _
    · have hta : t ≠ a := by
        rintro rfl
        exact (List.nodup_cons.mp hnd).1 htl
      have hstep : (updateTickCrossed (pk, a) g0 g1 m).get (pk, t) = some tk := by
        unfold updateTickCrossed
        cases hma : m.get (pk, a) with
        | none => exact htk
        | some tk2 =>
          rw [Store.get_set_ne m (pk, a) (pk, t) _ (by simp [hta])]
          exact htk
      exact ih (List.nodup_cons.mp hnd).2 _ htl hstep

theorem swapLoaded_ticks (e : SwapEvent) (pool : Pool) (token0 token1 : Token)
    (s : IndexerState) :
    (swapLoaded e pool token0 token1 s).ticks =
      (if pool.tick.getD 0 ≠ e.tick then
        (getInitializedTicksCrossed
            (fun tickIdx => (s.ticks.get (⟨e.chainId, e.id⟩, tickIdx)).isSome)
            (pool.tick.getD 0) e.tick pool.tickSpacing).foldl
          (fun m tickIdx => updateTickCrossed (⟨e.chainId, e.id⟩, tickIdx)
            (updateFeeGrowth pool.feeGrowthGlobal0X128
              (calculateFees (jsAbs (-e.amount0)) pool.feeTier) pool.liquidity)
            (updateFeeGrowth pool.feeGrowthGlobal1X128
              (calculateFees (jsAbs (-e.amount1)) pool.feeTier) pool.liquidity)
            m) s.ticks
      else s.ticks) := by
  unfold swapLoaded
  dsimp only
  split_ifs <;>
    first
    | rfl
    | (cases hhs : s.hookStats.get (e.chainId, pool.hooks) <;> rfl)

/-- C3: on a Swap over an existing pool, each side's fee is
abs(amount) * feeTier / 1000000 (truncating division), the global fee-growth
accumulators advance by fees * 2^128 / pre-swap liquidity (using the pool's
liquidity before the swap, guarded at zero), and every crossed initialized
tick's feeGrowthOutside accumulators are replaced by post-update-global minus
the old outside value. -/
theorem swap_fees_feeGrowth_and_flips (s : IndexerState) (e : SwapEvent)
    (pool : Pool) (token0 token1 : Token)
    (hp : s.pools.get ⟨e.chainId, e.id⟩ = some pool)
    (h0 : s.tokens.get pool.token0_id = some token0)
    (h1 : s.tokens.get pool.token1_id = some token1)
    (hsp : 0 < pool.tickSpacing) :
    ((swapStep s e).pools.get ⟨e.chainId, e.id⟩).map Pool.fees0 =
      some (pool.fees0 + calculateFees (jsAbs e.amount0) pool.feeTier)
    ∧ ((swapStep s e).pools.get ⟨e.chainId, e.id⟩).map Pool.fees1 =
      some (pool.fees1 + calculateFees (jsAbs e.amount1) pool.feeTier)
    ∧ ((swapStep s e).pools.get ⟨e.chainId, e.id⟩).map Pool.feeGrowthGlobal0X128 =
      some (updateFeeGrowth pool.feeGrowthGlobal0X128
        (calculateFees (jsAbs e.amount0) pool.feeTier) pool.liquidity)
    ∧ ((swapStep s e).pools.get ⟨e.chainId, e.id⟩).map Pool.feeGrowthGlobal1X128 =
      some (updateFeeGrowth pool.feeGrowthGlobal1X128
        (calculateFees (jsAbs e.amount1) pool.feeTier) pool.liquidity)
    ∧ (pool.liquidity ≠ 0 →
        ((swapStep s e).pools.get ⟨e.chainId, e.id⟩).map Pool.feeGrowthGlobal0X128 =
          some (pool.feeGrowthGlobal0X128 +
            jsDiv (calculateFees (jsAbs e.amount0) pool.feeTier * Q128) pool.liquidity))
    ∧ (pool.liquidity ≠ 0 →
        ((swapStep s e).pools.get ⟨e.chainId, e.id⟩).map Pool.feeGrowthGlobal1X128 =
          some (pool.feeGrowthGlobal1X128 +
            jsDiv (calculateFees (jsAbs e.amount1) pool.feeTier * Q128) pool.liquidity))
    ∧ (∀ t : Int, ∀ tk : Tick,
        t ∈ getInitializedTicksCrossed
          (fun tickIdx => (s.ticks.get (⟨e.chainId, e.id⟩, tickIdx)).isSome)
          (pool.tick.getD 0) e.tick pool.tickSpacing →
        s.ticks.get (⟨e.chainId, e.id⟩, t) = some tk →
        (swapStep s e).ticks.get (⟨e.chainId, e.id⟩, t) =
          some { tk with
            feeGrowthOutside0X128 := flipFeeGrowthOutside
              (updateFeeGrowth pool.feeGrowthGlobal0X128
                (calculateFees (jsAbs e.amount0) pool.feeTier) pool.liquidity)
              tk.feeGrowthOutside0X128
            feeGrowthOutside1X128 := flipFeeGrowthOutside
              (updateFeeGrowth pool.feeGrowthGlobal1X128
                (calculateFees (jsAbs e.amount1) pool.feeTier) pool.liquidity)
              tk.feeGrowthOutside1X128 }) := by
  have hstep : swapStep s e = swapLoaded e pool token0 token1 s := by
    unfold swapStep
    dsimp only
    rw [hp]
    dsimp only
    rw [h0, h1]
  rw [hstep]
  refine ⟨?_, ?_, ?_, ?_, ?_, ?_, ?_⟩
  · unfold swapLoaded
    dsimp only
    simp only [Store.get_set_self, Option.map_some', jsAbs_neg]
  · unfold swapLoaded
    dsimp only
    simp only [Store.get_set_self, Option.map_some', jsAbs_neg]
  · unfold swapLoaded
    dsimp only
    simp only [Store.get_set_self, Option.map_some', jsAbs_neg]
  · unfold swapLoaded
    dsimp only
    simp only [Store.get_set_self, Option.map_some', jsAbs_neg]
  · intro hl
    unfold swapLoaded
    dsimp only
    simp only [Store.get_set_self, Option.map_some', jsAbs_neg, updateFeeGrowth, if_neg hl]
  · intro hl
    unfold swapLoaded
    dsimp only
    simp only [Store.get_set_self, Option.map_some', jsAbs_neg, updateFeeGrowth, if_neg hl]
  · intro t tk htmem htk
    rw [swapLoaded_ticks e pool token0 token1 s]
    simp only [jsAbs_neg]
    by_cases hon : pool.tick.getD 0 = e.tick
    · rw [hon, crossed_self_empty] at htmem
      exact absurd htmem (List.not_mem_nil t)
    · rw [if_pos hon]
      rcases Ne.lt_or_lt hon with hlt | hgt
      · exact foldl_updateTickCrossed_mem _ _ _ _
          ((crossed_asc_sorted _ _ _ _ hsp hlt).imp fun hab => ne_of_lt hab)
          _ _ htmem _ htk
      · exact foldl_updateTickCrossed_mem _ _ _ _
          ((crossed_desc_sorted _ _ _ _ hsp hgt).imp fun hab => ne_of_gt hab)
          _ _ htmem _ htk

/-- Witness for swap_fees_feeGrowth_and_flips: a concrete swap that moves the
tick from 0 to 1 across an initialized tick. -/
theorem swap_fees_feeGrowth_and_flips_witness :
    ((swapStep sampleStateFull sampleSwapEvent).pools.get ⟨1, "p"⟩).map Pool.fees0 =
      some (samplePool.fees0 +
        calculateFees (jsAbs sampleSwapEvent.amount0) samplePool.feeTier)
    ∧ (swapStep sampleStateFull sampleSwapEvent).ticks.get (⟨1, "p"⟩, 1) =
        some { createTick 1 samplePoolId "p" 1 0 0 with
          feeGrowthOutside0X128 := flipFeeGrowthOutside
            (updateFeeGrowth samplePool.feeGrowthGlobal0X128
              (calculateFees (jsAbs sampleSwapEvent.amount0) samplePool.feeTier)
              samplePool.liquidity)
            (createTick 1 samplePoolId "p" 1 0 0).feeGrowthOutside0X128
          feeGrowthOutside1X128 := flipFeeGrowthOutside
            (updateFeeGrowth samplePool.feeGrowthGlobal1X128
              (calculateFees (jsAbs sampleSwapEvent.amount1) samplePool.feeTier)
              samplePool.liquidity)
            (createTick 1 samplePoolId "p" 1 0 0).feeGrowthOutside1X128 } :=
  ⟨(swap_fees_feeGrowth_and_flips sampleStateFull sampleSwapEvent samplePool
      (sampleToken "t0") (sampleToken "t1") (by decide) (by decide) (by decide)
      (by decide)).1,
   (swap_fees_feeGrowth_and_flips sampleStateFull sampleSwapEvent samplePool
      (sampleToken "t0") (sampleToken "t1") (by decide) (by decide) (by decide)
      (by decide)).2.2.2.2.2.2 1 (createTick 1 samplePoolId "p" 1 0 0)
      (by decide) (by decide)⟩

theorem storeFind_mem {κ α : Type} [DecidableEq κ] (key : κ) (l : List (κ × α)) (v : α)
    (h : storeFind key l = some v) : (key, v) ∈ l := by
  induction l with
  | nil => exact absurd h (by simp [storeFind])
  | cons kv rest ih =>
    rcases kv with ⟨k1, v1⟩
    unfold storeFind at h
    dsimp only at h
    split_ifs at h with hk
    · injection h with hv
      subst hv
      subst hk
      exact List.mem_cons_self _ _
    · exact List.mem_cons_of_mem _ (ih h)

theorem modifyLiquidityLoaded_positions (f : Int → Int) (e : ModifyLiquidityEvent)
    (pool : Pool) (token0 token1 : Token) (ltRO utRO : Option Tick)
    (posRO? : Option Position) (lpPair : LiquidityProvider × Store LPKey LiquidityProvider)
    (s1 : IndexerState) :
    ∃ p : Position,
      (modifyLiquidityLoaded f e pool token0 token1 ltRO utRO posRO? lpPair s1).positions =
        s1.positions.set (positionKeyOf e) p
      ∧ p.liquidity = (posRO?.map (fun q => q.liquidity)).getD 0 + e.liquidityDelta := by
  refine ⟨_, rfl, ?_⟩
  cases posRO? <;> (dsimp only; split_ifs <;> rfl)

theorem modifyLiquidityStep_positions (f : Int → Int) (s : IndexerState)
    (e : ModifyLiquidityEvent) :
    (modifyLiquidityStep f s e).positions = s.positions
    ∨ ∃ p : Position, (modifyLiquidityStep f s e).positions =
        s.positions.set (positionKeyOf e) p
        ∧ p.liquidity = posLiquidityAt s e + e.liquidityDelta := by
  unfold modifyLiquidityStep
  dsimp only
  cases hp : s.pools.get ⟨e.chainId, e.id⟩ with
  | none => exact Or.inl rfl
  | some pool =>
    dsimp only
    cases h0 : s.tokens.get pool.token0_id with
    | none => exact Or.inl rfl
    | some t0 =>
      cases h1 : s.tokens.get pool.token1_id with
      | none => exact Or.inl rfl
      | some t1 =>
        right
        obtain ⟨p, hps, hliq⟩ := modifyLiquidityLoaded_positions f e pool t0 t1
          (s.ticks.get (⟨e.chainId, e.id⟩, e.tickLower))
          (s.ticks.get (⟨e.chainId, e.id⟩, e.tickUpper))
          (s.positions.get (positionKeyOf e))
          (getOrCreateLiquidityProvider ⟨e.chainId, e.id⟩ e.chainId e.sender
            e.block.timestamp e.block.number s.lps)
          { s with lps := (getOrCreateLiquidityProvider ⟨e.chainId, e.id⟩ e.chainId e.sender
              e.block.timestamp e.block.number s.lps).2 }
        refine ⟨p, ?_, ?_⟩
        · exact hps
        · unfold posLiquidityAt
          exact hliq

theorem modify_step_preserves_nonneg (f : Int → Int) (s : IndexerState)
    (e : ModifyLiquidityEvent) (hinv : allPositionsNonneg s = true)
    (hok : -(posLiquidityAt s e) ≤ e.liquidityDelta) :
    allPositionsNonneg (modifyLiquidityStep f s e) = true := by
  rcases modifyLiquidityStep_positions f s e with h | ⟨p, h, hl⟩
  · unfold allPositionsNonneg at hinv ⊢
    rw [h]
    exact hinv
  · unfold allPositionsNonneg at hinv ⊢
    rw [h]
    unfold Store.set
    dsimp only
    rw [List.all_cons, Bool.and_eq_true]
    refine ⟨?_, hinv⟩
    simp only [decide_eq_true_eq]
    have hpl : 0 ≤ posLiquidityAt s e := by
      unfold posLiquidityAt
      cases hpos : s.positions.get (positionKeyOf e) with
      | none => simp
      | some q =>
        unfold Store.get at hpos
        have hmem := storeFind_mem _ _ _ hpos
        rw [List.all_eq_true] at hinv
        have hq := hinv _ hmem
        simp only [decide_eq_true_eq] at hq
        simpa using hq
    omega

/-- C5 counterexample: a single ModifyLiquidity with liquidityDelta = -1 on a
fresh (lazily created) position drives Position.liquidity to -1 < 0 — the
handler applies the delta without any lower-bound check. -/
theorem position_negative_liquidity_counterexample :
    ((modifyLiquidityStep sampleTickTable sampleStateFull
        (sampleModifyEvent (-1))).positions.get (samplePoolId, "a", 0, 1)).map
      Position.liquidity = some (-1)
    ∧ allPositionsNonneg
        (modifyLiquidityStep sampleTickTable sampleStateFull (sampleModifyEvent (-1)))
      = false := by
  refine ⟨by decide, by decide⟩

/-- C5 (amended): Position.liquidity stays nonnegative after every
ModifyLiquidity transition of a sequence provided each event removes no more
liquidity than its target position currently holds (the protocol's guarantee
for on-chain events); without that bound the invariant fails. -/
theorem positions_nonneg_under_protocol_bound (f : Int → Int) (s : IndexerState)
    (es : List ModifyLiquidityEvent) (hinv : allPositionsNonneg s = true)
    (hok : okModifySeq f s es = true) :
    allPositionsNonneg (applyModifySeq f s es) = true := by
  induction es generalizing s with
  | nil => simpa [applyModifySeq] using hinv
  | cons e es ih =>
    unfold okModifySeq at hok
    rw [Bool.and_eq_true] at hok
    unfold applyModifySeq
    rw [List.foldl_cons]
    exact ih (modifyLiquidityStep f s e)
      (modify_step_preserves_nonneg f s e hinv (by simpa using hok.1)) hok.2

/-- Witness for positions_nonneg_under_protocol_bound: add 2 then remove 2. -/
theorem positions_nonneg_under_protocol_bound_witness :
    allPositionsNonneg (applyModifySeq sampleTickTable sampleStateFull
      [sampleModifyEvent 2, sampleModifyEvent (-2)]) = true :=
  positions_nonneg_under_protocol_bound sampleTickTable sampleStateFull
    [sampleModifyEvent 2, sampleModifyEvent (-2)] (by decide) (by decide)

/-- Witness for feeGrowth_division_never_faults: the zero-liquidity
short-circuits at concrete inputs, including through the Donate handler. -/
theorem feeGrowth_division_never_faults_witness :
    updateFeeGrowth 7 5 0 = 7
    ∧ ((donateStep sampleStateLiq0 sampleDonateEvent).pools.get ⟨1, "p"⟩).map
        Pool.feeGrowthGlobal0X128 =
      some (donateFeeGrowth { samplePool with liquidity := 0 }.feeGrowthGlobal0X128
        sampleDonateEvent.amount0 { samplePool with liquidity := 0 }.liquidity) :=
  ⟨(feeGrowth_division_never_faults 7 5 0 0).2.2.1,
   ((feeGrowth_division_never_faults 7 5 0 0).2.2.2.2 sampleStateLiq0 sampleDonateEvent
      { samplePool with liquidity := 0 } (sampleToken "t0") (sampleToken "t1")
      (by decide) (by decide) (by decide)).1⟩

/-- Witness for donate_zero_liquidity_interval_fees at the spec's test vector. -/
theorem donate_zero_liquidity_interval_fees_witness :
    ((donateStep sampleStateLiq0 sampleDonateEvent).poolDayDatas.get
        ({ samplePool with liquidity := 0 }.id,
          jsFloorDiv sampleDonateEvent.block.timestamp 86400)).map PoolPeriodData.fees0 =
      some (((sampleStateLiq0.poolDayDatas.get
          ({ samplePool with liquidity := 0 }.id,
            jsFloorDiv sampleDonateEvent.block.timestamp 86400)).map
        PoolPeriodData.fees0).getD 0 + sampleDonateEvent.amount0) :=
  (donate_zero_liquidity_interval_fees sampleStateLiq0 sampleDonateEvent
    { samplePool with liquidity := 0 } (sampleToken "t0") (sampleToken "t1")
    (by decide) (by decide) (by decide) (by decide)).1

end UniV4
